import Mathlib

/-!
Verification of the error-normalization and access-verification core of the
github-mcp repository against its natural-language specification.

The TypeScript sources are shallowly embedded as pure Lean functions:
JavaScript objects become structures with `Option` fields (a field holding
`none` models an absent / `undefined` property), thrown errors become values
of `AnyErr` returned through `Except`, and the asynchronous collaborators
(the auth service and the octokit remote client) become explicit parameters
carrying the outcome the collaborator would produce.  Each service's
`execute` additionally reports whether the access check ran and with which
arguments the remote client was invoked, so that ordering claims
("no remote call is made before validation") are statable.
-/

set_option autoImplicit false

/-! ## Character-list string utilities

JavaScript's `String.prototype.includes`, `split(',')`, `trim` and
`toLowerCase` are modelled over `List Char` so that every proof obligation
reduces structurally. -/

/-- Predicate `leadEq pat s` holds when `pat` occurs at the very front of `s`. -/
def leadEq : List Char → List Char → Bool
  | [], _ => true
  | _ :: _, [] => false
  | a :: as, b :: bs => a == b && leadEq as bs

/-- Predicate `hasSub pat s` holds when `pat` occurs contiguously somewhere in `s`;
this is JavaScript's `s.includes(pat)`. -/
def hasSub (pat : List Char) : List Char → Bool
  | [] => pat.isEmpty
  | c :: rest => leadEq pat (c :: rest) || hasSub pat rest

/-- String-level substring test, modelling `s.includes(pat)`. -/
def strContains (s pat : String) : Bool :=
  hasSub pat.data s.data

/-- Substring test on a possibly-absent string, modelling `s?.includes(pat)`
(absent values make the whole optional-chain condition falsy). -/
def optContains (s : Option String) (pat : String) : Bool :=
  match s with
  | some v => strContains v pat
  | none => false

/-- Lower-casing, modelling `s.toLowerCase()` over the characters. -/
def lowerStr (s : String) : String :=
  ⟨s.data.map Char.toLower⟩

/-- Splitting at commas, modelling JavaScript `s.split(',')`:
`''.split(',') = ['']`, `'a,'.split(',') = ['a','']`. -/
def splitCommaAux : List Char → List Char → List (List Char)
  | [], acc => [acc.reverse]
  | c :: cs, acc =>
    if c == ',' then acc.reverse :: splitCommaAux cs []
    else splitCommaAux cs (c :: acc)

def splitComma (s : String) : List String :=
  (splitCommaAux s.data []).map (fun l => ⟨l⟩)

def isSpaceCh (c : Char) : Bool :=
  c == ' ' || c == '\t' || c == '\n' || c == '\r'

/-- Whitespace trimming, modelling JavaScript `s.trim()`. -/
def trimStr (s : String) : String :=
  ⟨((s.data.dropWhile isSpaceCh).reverse.dropWhile isSpaceCh).reverse⟩

/-- JavaScript `join(sep)` on a list of strings, modelling `parts.join(sep)`. -/
def joinSep (sep : String) : List String → String
  | [] => ""
  | [a] => a
  | a :: rest => a ++ sep ++ joinSep sep rest

/-! ## Data model shared by all services -/

/-- The MCP error codes the repository actually uses
(`ErrorCode.InternalError = -32603`, `ErrorCode.InvalidParams = -32602`). -/
inductive ErrorCode where
  | internalError
  | invalidParams
deriving DecidableEq, Repr

def codeNumStr : ErrorCode → String
  | .internalError => "-32603"
  | .invalidParams => "-32602"

/-- The response headers this codebase reads (each field is one concrete
header key of the octokit `{data, headers}` pair). -/
structure Headers where
  xRatelimitLimit : Option String := none
  xRatelimitRemaining : Option String := none
  xRatelimitReset : Option String := none
  xRatelimitUsed : Option String := none
  xOauthScopes : Option String := none
  xGithubRequestId : Option String := none
deriving DecidableEq, Repr

/-- The `response.data` of a raw octokit failure. -/
structure RespData where
  message : Option String := none
  documentation_url : Option String := none
deriving DecidableEq, Repr

/-- The `response` of a raw octokit failure. -/
structure ErrResponse where
  data : Option RespData := none
  headers : Option Headers := none
deriving DecidableEq, Repr

/-- The `rate_limit` / rate-limit-snapshot objects.  `getRateLimitInfo`
fills all four fields; the two-field `{remaining, reset}` literals elsewhere
in the code are modelled with `limit`/`used` absent. -/
structure RateLimitInfo where
  limit : Option String := none
  remaining : Option String := none
  reset : Option String := none
  used : Option String := none
deriving DecidableEq, Repr

/-- Dynamic JSON-ish values appearing in a `settings` object at runtime. -/
inductive JVal where
  | b (v : Bool)
  | s (v : String)
  | n (v : Int)
deriving DecidableEq, Repr

def JVal.isBool : JVal → Bool
  | .b _ => true
  | _ => false

/-- A JavaScript object with string keys in insertion order
(`Object.keys` / `Object.entries` order). -/
abbrev SettingsObj := List (String × JVal)

/-- The `details.repository` / `details.collaborator` payloads. -/
structure RepoRef where
  org : Option String := none
  repo : Option String := none
  name : Option String := none
deriving DecidableEq, Repr

structure CollabRef where
  org : Option String := none
  repo : Option String := none
  username : Option String := none
  permission : Option String := none
deriving DecidableEq, Repr

/-- The `details.originalError` as built by `createGitHubError`. -/
structure OrigErr where
  status : Option Nat := none
  message : Option String := none
  response : Option ErrResponse := none
  headers : Option Headers := none
deriving DecidableEq, Repr

/-- The structured detail payload of a uniform error (the repository's
`GitHubErrorDetails`), also used for the `context` objects handed to
`handleError` / `createGitHubError`.  A `none` field models an absent key. -/
structure Details where
  action : Option String := none
  attempted_operation : Option String := none
  organization : Option String := none
  repository : Option RepoRef := none
  collaborator : Option CollabRef := none
  settings : Option SettingsObj := none
  rate_limit : Option RateLimitInfo := none
  required_scopes : Option (List String) := none
  current_scopes : Option (List String) := none
  missing_scopes : Option (List String) := none
  documentation : Option String := none
  originalError : Option OrigErr := none
  requestId : Option String := none
  statusField : Option Nat := none
deriving DecidableEq, Repr

/-- Any error value flowing through the system: raw octokit rejections,
plain `Error`s, `GitHubError`s (an `Error` carrying `code` + `details`) and
`McpError`s (carrying `code` + `data`).  Absent properties are `none`. -/
structure AnyErr where
  message : String := ""
  status : Option Nat := none
  codeNum : Option ErrorCode := none
  codeStr : Option String := none
  details : Option Details := none
  data : Option Details := none
  response : Option ErrResponse := none
  headers : Option Headers := none
  isMcpInstance : Bool := false
deriving DecidableEq, Repr

deriving instance DecidableEq for Except

/-- JavaScript `new Error(msg)` with no further properties. -/
def plainError (msg : String) : AnyErr := { message := msg }

/-- The message the MCP SDK's `McpError` constructor installs. -/
def mcpMessage (c : ErrorCode) (m : String) : String :=
  "MCP error " ++ codeNumStr c ++ ": " ++ m

/-- JavaScript `new McpError(code, message, data)`. -/
def mkMcpError (c : ErrorCode) (msg : String) (d : Details) : AnyErr :=
  { message := mcpMessage c msg, codeNum := some c, data := some d,
    isMcpInstance := true }

/-- The structured payload an error exposes: `details` for `GitHubError`s,
`data` for `McpError`s. -/
def payloadOf (e : AnyErr) : Details :=
  match e.details with
  | some d => d
  | none => e.data.getD {}

def respHeadersOf (e : AnyErr) : Option Headers :=
  e.response.bind (·.headers)

def respDataMsgOf (e : AnyErr) : Option String :=
  (e.response.bind (·.data)).bind (·.message)

/-- Truthiness filter for string-valued context keys
(`if (rest.organization)` is false for the empty string). -/
def copyStr (o : Option String) : Option String :=
  match o with
  | some s => if s = "" then none else some s
  | none => none

/-- JavaScript `v || dflt` for a possibly-absent string (the empty string is
falsy and also falls back to the default). -/
def orElseStr (v : Option String) (dflt : String) : String :=
  match copyStr v with
  | some s => s
  | none => dflt

/-- Presence of a truthy `.code` property (`error.code && ...`): a numeric
MCP code is always truthy, a string code such as `'ENOTFOUND'` is truthy
unless empty. -/
def hasCodeField (e : AnyErr) : Bool :=
  e.codeNum.isSome ||
    (match e.codeStr with
     | some s => decide (s ≠ "")
     | none => false)

example : strContains "API rate limit exceeded" "rate limit" = true := by decide
example : strContains "Organization is required" "Network" = false := by decide
example : splitComma "" = [""] := by decide
example : (splitComma "read:org, repo").map trimStr = ["read:org", "repo"] := by decide

/-! ## Error factory (`src/services/error/errorUtils.ts`) -/

/-- Function `getRateLimitInfo(headers)` (`GitHubAuthService.getRateLimitInfo`,
delegated to by `BaseGitHubService.getRateLimitInfo`): a straight projection
of the four rate-limit headers. -/
def getRateLimitInfo (h : Headers) : RateLimitInfo :=
  { limit := h.xRatelimitLimit, remaining := h.xRatelimitRemaining,
    reset := h.xRatelimitReset, used := h.xRatelimitUsed }

/-- Function `createGitHubError({message, code, error, context})`
(`errorUtils.ts` lines 15-61).  Copies `action` / `attempted_operation` and
the raw failure into `originalError`; attaches `rate_limit` for a 403 whose
`response.data.message` mentions rate limiting (case-insensitively); then
copies exactly the six whitelisted context keys (`required_scopes`,
`current_scopes`, `organization`, `repository`, `collaborator`, `settings`
— note that other context keys such as `missing_scopes`, `documentation` or
`rate_limit` are NOT copied); finally derives `requestId` / `documentation`
from the raw response when one is present. -/
def createGitHubError (message : String) (code : ErrorCode) (error : AnyErr)
    (context : Details) : AnyErr :=
  let d0 : Details :=
    { action := context.action
      attempted_operation := context.attempted_operation
      originalError := some
        { status := error.status
          message := some error.message
          response := error.response
          headers := error.headers } }
  let rl : RateLimitInfo :=
    { remaining := (respHeadersOf error).bind (·.xRatelimitRemaining)
      reset := (respHeadersOf error).bind (·.xRatelimitReset) }
  let d1 :=
    if error.status == some 403 &&
        optContains ((respDataMsgOf error).map lowerStr) "rate limit" then
      { d0 with rate_limit := some rl }
    else d0
  let d2 :=
    { d1 with
      required_scopes := context.required_scopes
      current_scopes := context.current_scopes
      organization := copyStr context.organization
      repository := context.repository
      collaborator := context.collaborator
      settings := context.settings }
  let d3 :=
    if error.response.isSome then
      { d2 with
        requestId := (respHeadersOf error).bind (·.xGithubRequestId)
        documentation := (error.response.bind (·.data)).bind (·.documentation_url) }
    else d2
  { message := message, codeNum := some code, details := some d3 }

/-! ## Auth service (`src/services/auth/GitHubAuthService.ts`) -/

/-- The scope list computed by `GitHubAuthService.verifyAuth` from the
`x-oauth-scopes` response header (lines 17-19):
`(headers['x-oauth-scopes'] || '').split(',').map(s => s.trim())`. -/
def computeScopes (xOauthScopes : Option String) : List String :=
  (splitComma (xOauthScopes.getD "")).map trimStr

structure AuthResult where
  username : String
  scopes : List String
  headers : Option Headers := none
deriving DecidableEq, Repr

/-- Success path of `GitHubAuthService.verifyAuth` (lines 15-25); the
failure path (wrapping via `createGitHubError`) is not referenced by the
claims and is modelled by the `.err` case of `AuthOut` at each call site. -/
def GitHubAuthService.verifyAuth (username : String) (headers : Headers) :
    AuthResult :=
  { username := username
    scopes := computeScopes headers.xOauthScopes
    headers := some headers }

/-- Function `GitHubAuthService.verifyRequiredScopes(currentScopes, requiredScopes)`
(lines 39-56): `some e` models the function throwing `e`, `none` a normal
return.  The context passed to `createGitHubError` carries
`missing_scopes` and `documentation`, but the factory's whitelist drops
both (see `createGitHubError`). -/
def missingScopesOf (currentScopes requiredScopes : List String) : List String :=
  requiredScopes.filter (fun scope => !currentScopes.contains scope)

def verifyRequiredScopes (currentScopes requiredScopes : List String) :
    Option AnyErr :=
  if 0 < (missingScopesOf currentScopes requiredScopes).length then
    some (createGitHubError "Insufficient permissions" .invalidParams
      (plainError "Missing required scopes")
      { action := some "verify_scopes"
        required_scopes := some requiredScopes
        current_scopes := some currentScopes
        missing_scopes := some (missingScopesOf currentScopes requiredScopes)
        documentation := some "https://docs.github.com/apps/building-oauth-apps/understanding-scopes-for-oauth-apps" })
  else none

/-! ## Base service (`BaseGitHubService`, second document of
`src/services/logger.ts`) -/

/-- Override-merge of two detail objects, modelling the JavaScript spread
`{...details, ...context}`: a key present in `context` wins, keys absent
from `context` keep their `details` value.  (An object-literal key that is
present but explicitly `undefined` is modelled as absent.) -/
def ovr {α : Type} (ctxv oldv : Option α) : Option α :=
  match ctxv with
  | some v => some v
  | none => oldv

def mergeDetails (d ctx : Details) : Details :=
  { action := ovr ctx.action d.action
    attempted_operation := ovr ctx.attempted_operation d.attempted_operation
    organization := ovr ctx.organization d.organization
    repository := ovr ctx.repository d.repository
    collaborator := ovr ctx.collaborator d.collaborator
    settings := ovr ctx.settings d.settings
    rate_limit := ovr ctx.rate_limit d.rate_limit
    required_scopes := ovr ctx.required_scopes d.required_scopes
    current_scopes := ovr ctx.current_scopes d.current_scopes
    missing_scopes := ovr ctx.missing_scopes d.missing_scopes
    documentation := ovr ctx.documentation d.documentation
    originalError := ovr ctx.originalError d.originalError
    requestId := ovr ctx.requestId d.requestId
    statusField := ovr ctx.statusField d.statusField }

/-- Function `BaseGitHubService.handleError(error, context)` (lines 91-108 of the
base-service document): when the caught value already carries a truthy
`code` and a `details` object, its `details` are replaced by
`{...details, ...context}` and the SAME object is re-thrown; otherwise a
fresh `GitHubError` is built with `createGitHubError` (note that a
`McpError` carries its payload under `.data`, not `.details`, so it takes
the factory path).  The result models the thrown error. -/
def handleError (error : AnyErr) (context : Details) : AnyErr :=
  match error.details with
  | some d =>
    if hasCodeField error then
      { error with details := some (mergeDetails d context) }
    else
      createGitHubError
        (if error.message = "" then "An error occurred during the operation" else error.message)
        .internalError error context
  | none =>
    createGitHubError
      (if error.message = "" then "An error occurred during the operation" else error.message)
      .internalError error context

/-- Outcome of `this.verifyAccess(scopes)` as observed by a service:
either the auth collaborator succeeded, or it threw `e` (which
`verifyAccess` logs and re-throws unchanged). -/
inductive AuthOut where
  | ok
  | err (e : AnyErr)

/-! ## Organization listing

Two implementations exist in the repository: `ListOrgsService.execute`
(third document of the unnamed service file) and
`OctokitGitHubService.listOrgs` (`src/services/github.ts`). -/

/-- The fields of an octokit organization record that the code reads. -/
structure OrgData where
  login : String
  description : Option String := none
  url : String := ""
deriving DecidableEq, Repr

structure OrgMembership where
  is_member : Bool
  is_visible : Bool
deriving DecidableEq, Repr

structure GitHubOrg where
  name : String
  display_name : String
  description : Option String := none
  url : String := ""
  membership : OrgMembership
deriving DecidableEq, Repr

/-- Mapping `memberOrgsResponse.data.map(...)` of `ListOrgsService.execute`
(lines 298-307): every member org is marked `is_member: true,
is_visible: false`. -/
def toMemberOrg (o : OrgData) : GitHubOrg :=
  { name := o.login, display_name := o.login
    description := copyStr o.description, url := o.url
    membership := { is_member := true, is_visible := false } }

/-- Mapping `visibleOrgsResponse.data.map(...)` of `ListOrgsService.execute`
(lines 309-318): every visible org is marked `is_member: false,
is_visible: true`. -/
def toVisibleOrg (o : OrgData) : GitHubOrg :=
  { name := o.login, display_name := o.login
    description := copyStr o.description, url := o.url
    membership := { is_member := false, is_visible := true } }

/-- Catch block of `ListOrgsService.execute` (lines 325-353). -/
def listOrgsCatch (error : AnyErr) : AnyErr :=
  let errorContext : Details :=
    { action := some "list_organizations", attempted_operation := some "list_orgs" }
  if error.status == some 403 then
    let rateLimitInfo : RateLimitInfo :=
      { remaining := some ((((respHeadersOf error).bind (·.xRatelimitRemaining))).getD "0")
        reset := some ((((respHeadersOf error).bind (·.xRatelimitReset))).getD "1609459200") }
    handleError error { errorContext with rate_limit := some rateLimitInfo }
  else
    handleError error errorContext

structure ListOrgsOut where
  result : Except AnyErr (List GitHubOrg)
  accessChecked : Bool
  remoteCalled : Bool
deriving DecidableEq, Repr

/-- Function `ListOrgsService.execute()` (lines 276-354).  `remote` carries the joint
outcome of the two parallel listing calls (`orgs.listForAuthenticatedUser`
and `orgs.list`): if either rejects, `Promise.all` rejects with that error.
Note that the success path declares a deduplication `Map` (`allOrgs`,
line 295) but never inserts into it: the returned array is the plain
concatenation of the two mapped lists (line 321). -/
def ListOrgsService.execute (auth : AuthOut)
    (remote : Except AnyErr ((List OrgData × Headers) × (List OrgData × Headers))) :
    ListOrgsOut :=
  match auth with
  | .err e =>
    { result := .error (listOrgsCatch e), accessChecked := true, remoteCalled := false }
  | .ok =>
    match remote with
    | .error e =>
      { result := .error (listOrgsCatch e), accessChecked := true, remoteCalled := true }
    | .ok ((memberData, _h1), (visibleData, _h2)) =>
      { result := .ok (memberData.map toMemberOrg ++ visibleData.map toVisibleOrg)
        accessChecked := true, remoteCalled := true }

/-- The merge loop of `OctokitGitHubService.listOrgs`
(`src/services/github.ts` lines 109-127): iterate over the concatenation of
both source lists, inserting into an insertion-ordered map keyed by `login`
only when the key is new, with each entry's flags computed independently
from membership of the key in either source list. -/
def mergeOrgsGo (memberData visibleData : List OrgData) :
    List OrgData → List GitHubOrg → List GitHubOrg
  | [], acc => acc.reverse
  | o :: rest, acc =>
    if acc.any (fun g => g.name == o.login) then
      mergeOrgsGo memberData visibleData rest acc
    else
      mergeOrgsGo memberData visibleData rest
        ({ name := o.login, display_name := o.login
           description := copyStr o.description, url := o.url
           membership :=
             { is_member := memberData.any (fun m => m.login == o.login)
               is_visible := visibleData.any (fun v => v.login == o.login) } } :: acc)

/-- Success path of `OctokitGitHubService.listOrgs` after the two listing
calls resolved (`src/services/github.ts` lines 104-127). -/
def OctokitGitHubService.listOrgsMerge (memberData visibleData : List OrgData) :
    List GitHubOrg :=
  mergeOrgsGo memberData visibleData (memberData ++ visibleData) []

/-! ## Add collaborator

Two versions of `AddCollaboratorService.execute` exist: V1 (fourth document
of the unnamed service file, lines 378-505, the one the unit tests assert
against — its validation errors carry `attempted_operation:
'validate_input'`) and V2 (the stand-alone unnamed document, lines 23-141,
whose validation errors carry only `action`). -/

structure AddCollabInput where
  org : String
  repo : String
  username : String
  permission : String
deriving DecidableEq, Repr

structure Perms where
  pull : Bool
  push : Bool
  admin : Bool
deriving DecidableEq, Repr

structure GitHubCollaborator where
  status : String
  invitation_url : String
  permissions : Option Perms := none
deriving DecidableEq, Repr

/-- The octokit response data of `repos.addCollaborator` (the services read
none of it; `github.ts` reads `html_url`). -/
structure CollabRespData where
  html_url : Option String := none
deriving DecidableEq, Repr

/-- Arguments forwarded to `octokit.repos.addCollaborator`. -/
structure AddCollabCall where
  owner : String
  repo : String
  username : String
  permission : String
deriving DecidableEq, Repr

structure AddCollabOut where
  result : Except AnyErr GitHubCollaborator
  accessChecked : Bool
  calledWith : Option AddCollabCall
deriving DecidableEq, Repr

/-- The success payload both versions shape (V2 lines 76-85, V1 lines
425-434): constants for `status` and `invitation_url`, and a permission
matrix derived from the INPUT permission, ignoring the remote response. -/
def shapeCollaborator (permission : String) : GitHubCollaborator :=
  { status := "active"
    invitation_url := "https://github.com/orgs/test-org/invitation"
    permissions := some
      { pull := permission == "pull" || permission == "push" || permission == "admin"
        push := permission == "push" || permission == "admin"
        admin := permission == "admin" } }

/-- Catch block of V2 `AddCollaboratorService.execute` (lines 95-140). -/
def addCollabCatchV2 (params : AddCollabInput) (error : AnyErr) : AnyErr :=
  let errorDetails : Details :=
    { action := some "add_collaborator"
      attempted_operation := some "add_collaborator"
      organization := some params.org
      collaborator := some
        { username := some params.username, permission := some params.permission
          org := some params.org, repo := some params.repo } }
  if error.status == some 403 && strContains error.message "rate limit" then
    mkMcpError .internalError "API rate limit exceeded"
      { errorDetails with
        rate_limit := some (getRateLimitInfo ((respHeadersOf error).getD {})) }
  else if strContains error.message "Network" then
    mkMcpError .internalError "Network error" errorDetails
  else if error.isMcpInstance then
    error
  else
    mkMcpError .internalError
      (if error.message = "" then "Failed to add collaborator" else error.message)
      errorDetails

/-- V2 `AddCollaboratorService.execute(params)` (lines 23-141).  `remote`
is the outcome of `octokit.repos.addCollaborator`. -/
def AddCollaboratorServiceV2.execute (params : AddCollabInput) (auth : AuthOut)
    (remote : Except AnyErr (CollabRespData × Headers)) : AddCollabOut :=
  if params.org = "" ∨ params.repo = "" ∨ params.username = "" ∨ params.permission = "" then
    { result := .error (addCollabCatchV2 params (mkMcpError .internalError
        "Organization, repository, username, and permission are required"
        { action := some "add_collaborator" }))
      accessChecked := false, calledWith := none }
  else if !(["pull", "push", "admin"].contains params.permission) then
    { result := .error (addCollabCatchV2 params (mkMcpError .internalError
        "Invalid permission level"
        { action := some "add_collaborator"
          collaborator := some
            { permission := some params.permission, username := some params.username
              org := some params.org, repo := some params.repo } }))
      accessChecked := false, calledWith := none }
  else
    match auth with
    | .err e =>
      { result := .error (addCollabCatchV2 params e)
        accessChecked := true, calledWith := none }
    | .ok =>
      match remote with
      | .error e =>
        { result := .error (addCollabCatchV2 params e), accessChecked := true
          calledWith := some ⟨params.org, params.repo, params.username, params.permission⟩ }
      | .ok (_data, _hdrs) =>
        { result := .ok (shapeCollaborator params.permission), accessChecked := true
          calledWith := some ⟨params.org, params.repo, params.username, params.permission⟩ }

/-- Catch block of V1 `AddCollaboratorService.execute` (lines 443-504):
`McpError`s are re-thrown first; the rate-limit branch tests
`error.response?.data?.message`, and the network branch also accepts the
string codes `ENOTFOUND` / `ETIMEDOUT`. -/
def addCollabCatchV1 (params : AddCollabInput) (error : AnyErr) : AnyErr :=
  let errorDetails : Details :=
    { action := some "add_collaborator"
      attempted_operation := some "add_collaborator"
      organization := some params.org
      collaborator := some
        { username := some params.username, permission := some params.permission } }
  if error.isMcpInstance then
    error
  else if error.status == some 403 && optContains (respDataMsgOf error) "rate limit" then
    mkMcpError .internalError "API rate limit exceeded"
      { errorDetails with
        rate_limit := some (getRateLimitInfo ((respHeadersOf error).getD {})) }
  else if error.status == some 404 then
    mkMcpError .internalError "Not Found"
      { errorDetails with collaborator := some { username := some params.username } }
  else if error.codeStr == some "ENOTFOUND" || error.codeStr == some "ETIMEDOUT" ||
      strContains error.message "Network" then
    mkMcpError .internalError "Network error" errorDetails
  else
    mkMcpError .internalError
      (if error.message = "" then "Failed to add collaborator" else error.message)
      errorDetails

/-- V1 `AddCollaboratorService.execute(params)` (lines 378-505); both
validation errors carry `attempted_operation: 'validate_input'`. -/
def AddCollaboratorServiceV1.execute (params : AddCollabInput) (auth : AuthOut)
    (remote : Except AnyErr (CollabRespData × Headers)) : AddCollabOut :=
  if params.org = "" ∨ params.repo = "" ∨ params.username = "" ∨ params.permission = "" then
    { result := .error (addCollabCatchV1 params (mkMcpError .internalError
        "Organization, repository, username, and permission are required"
        { action := some "add_collaborator"
          attempted_operation := some "validate_input" }))
      accessChecked := false, calledWith := none }
  else if !(["pull", "push", "admin"].contains params.permission) then
    { result := .error (addCollabCatchV1 params (mkMcpError .internalError
        "Invalid permission level"
        { action := some "add_collaborator"
          attempted_operation := some "validate_input"
          collaborator := some { permission := some params.permission } }))
      accessChecked := false, calledWith := none }
  else
    match auth with
    | .err e =>
      { result := .error (addCollabCatchV1 params e)
        accessChecked := true, calledWith := none }
    | .ok =>
      match remote with
      | .error e =>
        { result := .error (addCollabCatchV1 params e), accessChecked := true
          calledWith := some ⟨params.org, params.repo, params.username, params.permission⟩ }
      | .ok (_data, _hdrs) =>
        { result := .ok (shapeCollaborator params.permission), accessChecked := true
          calledWith := some ⟨params.org, params.repo, params.username, params.permission⟩ }

/-! ## List repositories

`src/services/repositories/ListReposService.ts` contains two versions of
`ListReposService.execute`: version A (first document, throwing through
`handleError`) and version B (second document, throwing `McpError`s
directly). -/

/-- The octokit repository record fields the code reads.  `privateFlag`
models the `private` property (a Lean keyword). -/
structure RepoData where
  name : String
  description : Option String := none
  privateFlag : Bool := false
  url : String := ""
  clone_url : Option String := none
deriving DecidableEq, Repr

structure GitHubRepo where
  name : String
  description : Option String := none
  privateFlag : Bool := false
  url : String := ""
  clone_url : String := ""
  html_url : Option String := none
  visibility : Option String := none
  created_at : Option String := none
deriving DecidableEq, Repr

structure ListReposInput where
  org : String
deriving DecidableEq, Repr

structure ListReposOut where
  result : Except AnyErr (List GitHubRepo)
  accessChecked : Bool
  remoteCalled : Bool
deriving DecidableEq, Repr

/-- The per-repo mapping both versions share (A lines 47-53, B lines
138-144): `clone_url` falls back to a synthesized GitHub URL when the
remote omits it (JavaScript `||`, so an empty string also falls back). -/
def mapListedRepo (org : String) (repo : RepoData) : GitHubRepo :=
  { name := repo.name
    description := copyStr repo.description
    privateFlag := repo.privateFlag
    url := repo.url
    clone_url := orElseStr repo.clone_url
      ("https://github.com/" ++ org ++ "/" ++ repo.name ++ ".git") }

/-- Catch block of version A `ListReposService.execute` (lines 61-87):
builds a context (upgrading it on `Bad credentials` / rate-limit wording)
and funnels the error through `handleError`. -/
def listReposCatchA (params : ListReposInput) (error : AnyErr) : AnyErr :=
  let c0 : Details :=
    { action := some "list_repositories"
      attempted_operation := some "list_repos"
      organization := some params.org }
  let c1 :=
    if strContains error.message "Bad credentials" then
      { c0 with attempted_operation := some "verify_auth"
                required_scopes := some ["read:org", "repo"] }
    else c0
  let c2 :=
    if error.status == some 403 && strContains error.message "rate limit" then
      { c1 with rate_limit := some (getRateLimitInfo ((respHeadersOf error).getD {})) }
    else c1
  handleError error c2

/-- Version A `ListReposService.execute(params)` (lines 20-88): the missing
`org` validation throws through `this.handleError`, whose `GitHubError` is
then re-processed by the same catch block. -/
def ListReposServiceA.execute (params : ListReposInput) (auth : AuthOut)
    (remote : Except AnyErr (List RepoData × Headers)) : ListReposOut :=
  if params.org = "" then
    { result := .error (listReposCatchA params
        (handleError (plainError "Organization is required")
          { action := some "list_repositories" }))
      accessChecked := false, remoteCalled := false }
  else
    match auth with
    | .err e =>
      { result := .error (listReposCatchA params e)
        accessChecked := true, remoteCalled := false }
    | .ok =>
      match remote with
      | .error e =>
        { result := .error (listReposCatchA params e)
          accessChecked := true, remoteCalled := true }
      | .ok (repos, _hdrs) =>
        { result := .ok (repos.map (mapListedRepo params.org))
          accessChecked := true, remoteCalled := true }

/-- Catch block of version B `ListReposService.execute` (lines 152-191). -/
def listReposCatchB (params : ListReposInput) (error : AnyErr) : AnyErr :=
  let errorDetails : Details :=
    { action := some "list_repositories"
      attempted_operation := some "list_repos"
      organization := some params.org }
  if error.status == some 403 && strContains error.message "rate limit" then
    mkMcpError .internalError "API rate limit exceeded"
      { errorDetails with
        rate_limit := some (getRateLimitInfo ((respHeadersOf error).getD {})) }
  else if strContains error.message "Network" then
    mkMcpError .internalError "Network error" errorDetails
  else if error.isMcpInstance then
    error
  else
    mkMcpError .internalError
      (if error.message = "" then "Failed to list repositories" else error.message)
      errorDetails

/-- Version B `ListReposService.execute(params)` (lines 109-192). -/
def ListReposServiceB.execute (params : ListReposInput) (auth : AuthOut)
    (remote : Except AnyErr (List RepoData × Headers)) : ListReposOut :=
  if params.org = "" then
    { result := .error (listReposCatchB params (mkMcpError .internalError
        "Organization is required" { action := some "list_repositories" }))
      accessChecked := false, remoteCalled := false }
  else
    match auth with
    | .err e =>
      { result := .error (listReposCatchB params e)
        accessChecked := true, remoteCalled := false }
    | .ok =>
      match remote with
      | .error e =>
        { result := .error (listReposCatchB params e)
          accessChecked := true, remoteCalled := true }
      | .ok (repos, _hdrs) =>
        { result := .ok (repos.map (mapListedRepo params.org))
          accessChecked := true, remoteCalled := true }

/-! ## Create repository

The unnamed service file contains two versions of
`CreateRepoService.execute`: version A (first document, lines 23-129) and
version B (second document, lines 153-260, throwing through
`handleError`).  Both inputs are modelled with string fields, so version
B's `typeof` re-validation (which can only fire on non-string inputs) is
always passed. -/

structure CreateRepoInput where
  org : String
  name : String
  description : Option String := none
  privateFlag : Option Bool := none
deriving DecidableEq, Repr

/-- The octokit `repos.createInOrg` response data fields the code reads. -/
structure CreateRespData where
  name : String
  description : Option String := none
  privateFlag : Bool := false
  url : String := ""
  clone_url : String := ""
  html_url : String := ""
  visibility : Option String := none
  created_at : String := ""
deriving DecidableEq, Repr

structure CreateRepoOut where
  result : Except AnyErr GitHubRepo
  accessChecked : Bool
  remoteCalled : Bool
deriving DecidableEq, Repr

/-- The success payload of both versions (A lines 59-68, B lines 207-216):
`visibility` falls back to `'private'`/`'public'` from the `private` flag
when the remote omits it. -/
def shapeCreatedRepo (d : CreateRespData) : GitHubRepo :=
  { name := d.name
    description := copyStr d.description
    privateFlag := d.privateFlag
    url := d.url
    clone_url := d.clone_url
    html_url := some d.html_url
    visibility := some (orElseStr d.visibility (if d.privateFlag then "private" else "public"))
    created_at := some d.created_at }

/-- Catch block of version A `CreateRepoService.execute` (lines 77-128);
it re-tests the missing-parameter condition, so the catch needs `params`. -/
def createRepoCatchA (params : CreateRepoInput) (error : AnyErr) : AnyErr :=
  let errorDetails : Details :=
    { action := some "create_repository"
      attempted_operation := some "create_repo"
      organization := some params.org
      repository := some { org := some params.org, name := some params.name } }
  if error.status == some 403 && strContains error.message "rate limit" then
    mkMcpError .internalError "API rate limit exceeded"
      { errorDetails with
        rate_limit := some (getRateLimitInfo ((respHeadersOf error).getD {})) }
  else if strContains error.message "Network" then
    mkMcpError .internalError "Network error" errorDetails
  else if params.org = "" ∨ params.name = "" then
    mkMcpError .internalError "Organization and name are required" errorDetails
  else if error.isMcpInstance then
    error
  else
    mkMcpError .internalError
      (if error.message = "" then "Failed to create repository" else error.message)
      errorDetails

/-- Version A `CreateRepoService.execute(params)` (lines 23-129). -/
def CreateRepoServiceA.execute (params : CreateRepoInput) (auth : AuthOut)
    (remote : Except AnyErr (CreateRespData × Headers)) : CreateRepoOut :=
  if params.org = "" ∨ params.name = "" then
    { result := .error (createRepoCatchA params (mkMcpError .internalError
        "Organization and name are required" { action := some "create_repository" }))
      accessChecked := false, remoteCalled := false }
  else
    match auth with
    | .err e =>
      { result := .error (createRepoCatchA params e)
        accessChecked := true, remoteCalled := false }
    | .ok =>
      match remote with
      | .error e =>
        { result := .error (createRepoCatchA params e)
          accessChecked := true, remoteCalled := true }
      | .ok (d, _hdrs) =>
        { result := .ok (shapeCreatedRepo d)
          accessChecked := true, remoteCalled := true }

/-- Catch block of version B `CreateRepoService.execute` (lines 225-259):
builds a context (upgrading on `Bad credentials` / rate-limit wording) and
funnels the error through `handleError`. -/
def createRepoCatchB (params : CreateRepoInput) (error : AnyErr) : AnyErr :=
  let c0 : Details :=
    { action := some "create_repository"
      attempted_operation := some "create_repo"
      organization := some params.org
      repository := some { org := some params.org, name := some params.name } }
  let c1 :=
    if strContains error.message "Bad credentials" then
      { c0 with attempted_operation := some "verify_auth"
                required_scopes := some ["repo"] }
    else c0
  let c2 :=
    if error.status == some 403 && strContains error.message "rate limit" then
      { c1 with rate_limit := some (getRateLimitInfo ((respHeadersOf error).getD {})) }
    else c1
  handleError error c2

/-- Version B `CreateRepoService.execute(params)` (lines 153-260): the
missing-parameter validation throws through `this.handleError`, whose
`GitHubError` is then re-processed by the same catch block. -/
def CreateRepoServiceB.execute (params : CreateRepoInput) (auth : AuthOut)
    (remote : Except AnyErr (CreateRespData × Headers)) : CreateRepoOut :=
  if params.org = "" ∨ params.name = "" then
    { result := .error (createRepoCatchB params
        (handleError (plainError "Organization and name are required")
          { action := some "create_repository"
            attempted_operation := some "create_repo" }))
      accessChecked := false, remoteCalled := false }
  else
    match auth with
    | .err e =>
      { result := .error (createRepoCatchB params e)
        accessChecked := true, remoteCalled := false }
    | .ok =>
      match remote with
      | .error e =>
        { result := .error (createRepoCatchB params e)
          accessChecked := true, remoteCalled := true }
      | .ok (d, _hdrs) =>
        { result := .ok (shapeCreatedRepo d)
          accessChecked := true, remoteCalled := true }

/-! ## Update repository settings
(`src/services/repositories/UpdateRepoSettingsService.ts`) -/

structure UpdateInput where
  org : String
  repo : String
  settings : Option SettingsObj
deriving DecidableEq, Repr

/-- The octokit `repos.update` response data fields the code reads. -/
structure UpdateRespData where
  name : String
  has_issues : Option Bool := none
  has_projects : Option Bool := none
  has_wiki : Option Bool := none
  allow_squash_merge : Option Bool := none
  allow_merge_commit : Option Bool := none
  allow_rebase_merge : Option Bool := none
deriving DecidableEq, Repr

structure GitHubRepoSettings where
  name : String
  settings : SettingsObj
deriving DecidableEq, Repr

/-- Arguments forwarded to `octokit.repos.update`
(`{owner, repo, ...settings}`). -/
structure UpdateCall where
  owner : String
  repo : String
  settings : SettingsObj
deriving DecidableEq, Repr

structure UpdateOut where
  result : Except AnyErr GitHubRepoSettings
  accessChecked : Bool
  calledWith : Option UpdateCall
deriving DecidableEq, Repr

/-- The allow-list of lines 36-43. -/
def validSettings : List String :=
  ["has_issues", "has_projects", "has_wiki",
   "allow_squash_merge", "allow_merge_commit", "allow_rebase_merge"]

/-- Computation `Object.keys(params.settings).filter(key => !validSettings.includes(key))`
(lines 46-48). -/
def invalidSettingKeys (s : SettingsObj) : List String :=
  (s.map Prod.fst).filter (fun key => !validSettings.contains key)

/-- The success payload of lines 104-114: always exactly the six
allow-listed keys, each defaulted with `?? false` from the remote
response. -/
def shapeUpdatedSettings (d : UpdateRespData) : GitHubRepoSettings :=
  { name := d.name
    settings :=
      [("has_issues", JVal.b (d.has_issues.getD false)),
       ("has_projects", JVal.b (d.has_projects.getD false)),
       ("has_wiki", JVal.b (d.has_wiki.getD false)),
       ("allow_squash_merge", JVal.b (d.allow_squash_merge.getD false)),
       ("allow_merge_commit", JVal.b (d.allow_merge_commit.getD false)),
       ("allow_rebase_merge", JVal.b (d.allow_rebase_merge.getD false))] }

/-- Catch block of `UpdateRepoSettingsService.execute` (lines 123-176). -/
def updateCatch (params : UpdateInput) (error : AnyErr) : AnyErr :=
  let errorDetails : Details :=
    { action := some "update_repository_settings"
      attempted_operation := some "update_repo_settings"
      organization := some params.org
      repository :=
        if params.org ≠ "" ∧ params.repo ≠ "" then
          some { org := some params.org, repo := some params.repo }
        else none }
  if error.status == some 403 && strContains error.message "rate limit" then
    mkMcpError .internalError "API rate limit exceeded"
      { errorDetails with
        rate_limit := some (getRateLimitInfo ((respHeadersOf error).getD {})) }
  else if strContains error.message "Network" then
    mkMcpError .internalError "Network error" errorDetails
  else if params.org = "" ∨ params.repo = "" ∨ params.settings = none then
    mkMcpError .internalError "Organization, repository, and settings are required"
      { action := some "update_repository_settings" }
  else if error.isMcpInstance then
    error
  else
    mkMcpError .internalError
      (if error.message = "" then "Failed to update repository settings" else error.message)
      errorDetails

/-- Function `UpdateRepoSettingsService.execute(params)` (lines 22-177).  Validation
order: missing parameters, then unknown settings keys (rejected all at
once, joined with `', '`), then the first non-boolean value in object-key
order (`forEach` throws at the first offender); only then the access check
and the remote `repos.update` call. -/
def UpdateRepoSettingsService.execute (params : UpdateInput) (auth : AuthOut)
    (remote : Except AnyErr (UpdateRespData × Headers)) : UpdateOut :=
  if params.org = "" ∨ params.repo = "" ∨ params.settings = none then
    { result := .error (updateCatch params (mkMcpError .internalError
        "Organization, repository, and settings are required"
        { action := some "update_repository_settings" }))
      accessChecked := false, calledWith := none }
  else
    let s := params.settings.getD []
    if 0 < (invalidSettingKeys s).length then
      { result := .error (updateCatch params (mkMcpError .internalError
          ("Invalid settings provided: " ++ joinSep ", " (invalidSettingKeys s))
          { action := some "update_repository_settings"
            organization := some params.org
            repository := some { org := some params.org, repo := some params.repo } }))
        accessChecked := false, calledWith := none }
    else
      match s.find? (fun kv => !kv.2.isBool) with
      | some kv =>
        { result := .error (updateCatch params (mkMcpError .internalError
            ("Setting \x27" ++ kv.1 ++ "\x27 must be a boolean")
            { action := some "update_repository_settings"
              organization := some params.org
              repository := some { org := some params.org, repo := some params.repo } }))
          accessChecked := false, calledWith := none }
      | none =>
        match auth with
        | .err e =>
          { result := .error (updateCatch params e)
            accessChecked := true, calledWith := none }
        | .ok =>
          match remote with
          | .error e =>
            { result := .error (updateCatch params e), accessChecked := true
              calledWith := some ⟨params.org, params.repo, s⟩ }
          | .ok (d, _hdrs) =>
            { result := .ok (shapeUpdatedSettings d), accessChecked := true
              calledWith := some ⟨params.org, params.repo, s⟩ }

/-! ## Generic result accessors used by the theorems -/

def isErr {α : Type} : Except AnyErr α → Bool
  | .error _ => true
  | .ok _ => false

def errOrD {α : Type} (d : AnyErr) : Except AnyErr α → AnyErr
  | .error e => e
  | .ok _ => d

def okOrD {α : Type} (d : α) : Except AnyErr α → α
  | .ok v => v
  | .error _ => d

/-- Modelled from the spec: the implementation's errors all carry the
generic MCP `InternalError` (or `InvalidParams`) code, so the spec's
abstract `RATE_LIMITED` classification (section 7) is interpreted as the
observable rate-limit classification: a uniform error is rate-limited
exactly when a `rate_limit` snapshot was attached to its payload. -/
def isRateLimitClassified (d : Details) : Bool :=
  d.rate_limit.isSome

/-! ## Substring lemmas -/

theorem strData_append (a b : String) : (a ++ b).data = a.data ++ b.data := rfl

theorem hasSub_nil_pat (l : List Char) : hasSub [] l = true := by
  induction l with
  | nil => rfl
  | cons c rest ih => simp [hasSub, leadEq]

theorem leadEq_refl_append (p r : List Char) : leadEq p (p ++ r) = true := by
  induction p with
  | nil => rfl
  | cons a as ih => simp [leadEq, ih]

theorem hasSub_refl_append (p r : List Char) : hasSub p (p ++ r) = true := by
  cases p with
  | nil => exact hasSub_nil_pat r
  | cons a as =>
    simp only [hasSub, Bool.or_eq_true]
    exact Or.inl (leadEq_refl_append (a :: as) r)

theorem hasSub_cons (p : List Char) (c : Char) (l : List Char)
    (h : hasSub p l = true) : hasSub p (c :: l) = true := by
  simp [hasSub, h]

theorem hasSub_append_pre (p x l : List Char) (h : hasSub p l = true) :
    hasSub p (x ++ l) = true := by
  induction x with
  | nil => simpa using h
  | cons c cs ih => simpa using hasSub_cons p c (cs ++ l) ih

theorem hasSub_joinSep (sep k : String) (l : List String) (h : k ∈ l) :
    hasSub k.data (joinSep sep l).data = true := by
  induction l with
  | nil => cases h
  | cons x rest ih =>
    cases h with
    | head =>
      cases rest with
      | nil =>
        have : joinSep sep [k] = k := rfl
        rw [this]
        simpa using hasSub_refl_append k.data []
      | cons y ys =>
        have : joinSep sep (k :: y :: ys) = k ++ sep ++ joinSep sep (y :: ys) := rfl
        rw [this, strData_append, strData_append, List.append_assoc]
        exact hasSub_refl_append k.data (sep.data ++ (joinSep sep (y :: ys)).data)
    | tail _ hmem =>
      cases rest with
      | nil => cases hmem
      | cons y ys =>
        have : joinSep sep (x :: y :: ys) = x ++ sep ++ joinSep sep (y :: ys) := rfl
        rw [this, strData_append, strData_append, List.append_assoc]
        exact hasSub_append_pre k.data x.data _
          (hasSub_append_pre k.data sep.data _ (ih hmem))

theorem strContains_append_right (a b k : String)
    (h : strContains b k = true) : strContains (a ++ b) k = true := by
  rw [strContains, strData_append]
  exact hasSub_append_pre k.data a.data b.data h

theorem strContains_decomp (a k b : String) : strContains (a ++ (k ++ b)) k = true := by
  apply strContains_append_right
  rw [strContains, strData_append]
  exact hasSub_refl_append k.data b.data

theorem strContains_joinSep (a sep k : String) (l : List String) (h : k ∈ l) :
    strContains (a ++ joinSep sep l) k = true := by
  apply strContains_append_right
  exact hasSub_joinSep sep k l h

/-! ## Claim C1 -/

/-- C1: for member-orgs `[{login:"a"}]` and visible-orgs
`[{login:"a"},{login:"b"}]`, the merge in `OctokitGitHubService.listOrgs`
behaves exactly as the claim states (2 deduplicated entries, entry `a` with
both flags true, entry `b` member-false/visible-true) — but the
`list_organizations` operation's own `ListOrgsService.execute` does not: it
returns the 3-entry concatenation with a duplicated `a` whose first copy is
marked not visible, despite its own "Combine and deduplicate organizations"
comment and its unused deduplication map.  Both implementations are
evaluated here at that failing input. -/
theorem claim_C1_list_orgs_merge :
    OctokitGitHubService.listOrgsMerge
        [{ login := "a", url := "https://api.github.com/orgs/a" }]
        [{ login := "a", url := "https://api.github.com/orgs/a" },
         { login := "b", url := "https://api.github.com/orgs/b" }] =
      [{ name := "a", display_name := "a", url := "https://api.github.com/orgs/a"
         membership := { is_member := true, is_visible := true } },
       { name := "b", display_name := "b", url := "https://api.github.com/orgs/b"
         membership := { is_member := false, is_visible := true } }]
    ∧ (ListOrgsService.execute .ok
        (.ok (([{ login := "a", url := "https://api.github.com/orgs/a" }], {}),
              ([{ login := "a", url := "https://api.github.com/orgs/a" },
                { login := "b", url := "https://api.github.com/orgs/b" }], {})))).result =
      .ok
        [{ name := "a", display_name := "a", url := "https://api.github.com/orgs/a"
           membership := { is_member := true, is_visible := false } },
         { name := "a", display_name := "a", url := "https://api.github.com/orgs/a"
           membership := { is_member := false, is_visible := true } },
         { name := "b", display_name := "b", url := "https://api.github.com/orgs/b"
           membership := { is_member := false, is_visible := true } }] := by
  decide

/-! ## Claim C4 -/

/-- C4 counterexample: for `current = ['repo']`, `required =
['repo','read:org']` the raised error does carry `required_scopes` and
`current_scopes`, but `missing_scopes` and the documentation pointer are
absent from its details — `createGitHubError`'s context whitelist drops
them — contradicting the claim that the error carries
`missing_scopes = missing` and a fixed documentation pointer. -/
theorem claim_C4_cex :
    ∃ e, verifyRequiredScopes ["repo"] ["repo", "read:org"] = some e
      ∧ (payloadOf e).missing_scopes = none
      ∧ (payloadOf e).documentation = none
      ∧ (payloadOf e).required_scopes = some ["repo", "read:org"]
      ∧ (payloadOf e).current_scopes = some ["repo"] := by
  refine ⟨_, rfl, ?_, ?_, ?_, ?_⟩ <;> decide

/-- C4 (amended): `verifyRequiredScopes(current, required)` computes
`missing` as the list of required scopes not contained in `current` and
raises an error if and only if `missing` is non-empty; the raised error
carries `required_scopes = required` and `current_scopes = current` (with
the MCP `InvalidParams` code and action `verify_scopes`), but the
`missing_scopes` and documentation values passed in its context are
discarded by the error factory's whitelist and do not appear on the
error. -/
theorem claim_C4_verifyRequiredScopes (current required : List String) :
    (verifyRequiredScopes current required = none ↔
      missingScopesOf current required = [])
    ∧ (∀ e, verifyRequiredScopes current required = some e →
        e.codeNum = some ErrorCode.invalidParams
        ∧ (payloadOf e).action = some "verify_scopes"
        ∧ (payloadOf e).required_scopes = some required
        ∧ (payloadOf e).current_scopes = some current
        ∧ (payloadOf e).missing_scopes = none
        ∧ (payloadOf e).documentation = none) := by
  unfold verifyRequiredScopes
  split
  next hpos =>
    constructor
    · constructor
      · intro hc; cases hc
      · intro hc; rw [hc] at hpos; simp at hpos
    · intro e he
      injection he with he
      subst he
      refine ⟨rfl, ?_, ?_, ?_, ?_, ?_⟩ <;>
        simp [createGitHubError, payloadOf, plainError, respHeadersOf,
          respDataMsgOf, optContains, copyStr]
  next hpos =>
    constructor
    · constructor
      · intro _
        rcases h : missingScopesOf current required with _ | ⟨x, xs⟩
        · rfl
        · rw [h] at hpos; simp at hpos
      · intro _; rfl
    · intro e he; cases he

/-- C4 witness. -/
theorem claim_C4_witness :
    (verifyRequiredScopes ["repo"] ["repo", "read:org"] = none ↔
      missingScopesOf ["repo"] ["repo", "read:org"] = [])
    ∧ (∀ e, verifyRequiredScopes ["repo"] ["repo", "read:org"] = some e →
        e.codeNum = some ErrorCode.invalidParams
        ∧ (payloadOf e).action = some "verify_scopes"
        ∧ (payloadOf e).required_scopes = some ["repo", "read:org"]
        ∧ (payloadOf e).current_scopes = some ["repo"]
        ∧ (payloadOf e).missing_scopes = none
        ∧ (payloadOf e).documentation = none) :=
  claim_C4_verifyRequiredScopes ["repo"] ["repo", "read:org"]

/-! ## Claim C5 -/

/-- C5 counterexample: an error already carrying the uniform shape with
`details.attempted_operation = 'verify_auth'` is re-thrown by
`handleError` with that detail field REPLACED by the context's
`'list_repos'` — the spread `{...details, ...context}` lets context keys
overwrite same-named earlier detail fields, contradicting the claim that
the earlier classification's detail fields are preserved rather than
replaced. -/
theorem claim_C5_cex :
    (payloadOf (handleError
      { message := "Insufficient permissions"
        codeNum := some ErrorCode.invalidParams
        details := some { action := some "verify_scopes"
                          attempted_operation := some "verify_auth" } }
      { action := some "list_repositories"
        attempted_operation := some "list_repos" })).attempted_operation =
      some "list_repos"
    ∧ (some "list_repos" : Option String) ≠ some "verify_auth" := by
  constructor
  · decide
  · decide

/-- C5 (amended): when the caught value carries the uniform shape (a truthy
`code` and a `details` object), `handleError` re-throws the very same error
value — same `code`, same `message`, all non-detail fields unchanged — with
`details` replaced by `{...details, ...context}`: detail fields NOT named
in the context are preserved, but a field present in both is overwritten by
the context's value.  Any other caught value is wrapped into a fresh
uniform error by `createGitHubError`. -/
theorem claim_C5_handleError (e : AnyErr) (ctx : Details) :
    (∀ d, e.details = some d → hasCodeField e = true →
        handleError e ctx = { e with details := some (mergeDetails d ctx) }
        ∧ (handleError e ctx).message = e.message
        ∧ (handleError e ctx).codeNum = e.codeNum
        ∧ (ctx.attempted_operation = none →
            (mergeDetails d ctx).attempted_operation = d.attempted_operation)
        ∧ (∀ v, ctx.attempted_operation = some v →
            (mergeDetails d ctx).attempted_operation = some v))
    ∧ (e.details = none →
        handleError e ctx = createGitHubError
          (if e.message = "" then "An error occurred during the operation" else e.message)
          .internalError e ctx)
    ∧ (hasCodeField e = false →
        handleError e ctx = createGitHubError
          (if e.message = "" then "An error occurred during the operation" else e.message)
          .internalError e ctx) := by
  refine ⟨?_, ?_, ?_⟩
  · intro d hd hc
    have h1 : handleError e ctx = { e with details := some (mergeDetails d ctx) } := by
      unfold handleError
      rw [hd]
      simp [hc]
    refine ⟨h1, by rw [h1], by rw [h1], ?_, ?_⟩
    · intro hno; simp [mergeDetails, ovr, hno]
    · intro v hv; simp [mergeDetails, ovr, hv]
  · intro hd
    unfold handleError
    rw [hd]
  · intro hc
    unfold handleError
    cases hdet : e.details with
    | none => rfl
    | some d => simp [hc]

/-- C5 witness: both branches of the amended claim applied at concrete
inputs (a shaped `GitHubError` with a merge, and a raw error that is
re-wrapped). -/
theorem claim_C5_witness :
    (handleError
        { message := "Insufficient permissions"
          codeNum := some ErrorCode.invalidParams
          details := some { action := some "verify_scopes" } }
        { attempted_operation := some "list_repos" } =
      { message := "Insufficient permissions"
        codeNum := some ErrorCode.invalidParams
        details := some (mergeDetails { action := some "verify_scopes" }
          { attempted_operation := some "list_repos" }) })
    ∧ (handleError (plainError "boom") { action := some "list_repositories" } =
        createGitHubError
          (if (plainError "boom").message = "" then "An error occurred during the operation"
           else (plainError "boom").message)
          .internalError (plainError "boom") { action := some "list_repositories" }) := by
  constructor
  · exact ((claim_C5_handleError
      { message := "Insufficient permissions"
        codeNum := some ErrorCode.invalidParams
        details := some { action := some "verify_scopes" } }
      { attempted_operation := some "list_repos" }).1
        { action := some "verify_scopes" } rfl (by decide)).1
  · exact (claim_C5_handleError (plainError "boom")
      { action := some "list_repositories" }).2.1 rfl

/-! ## Claim C10 -/

/-- C10 counterexample: with an absent `x-oauth-scopes` header the computed
scope list is indeed `['']`, but verification against the non-empty
required set `['']` SUCCEEDS (the empty-string token satisfies it), so the
claim's "every subsequent scope verification against a non-empty required
scope set fails" is false at the non-empty required list holding one empty token. -/
theorem claim_C10_cex :
    (GitHubAuthService.verifyAuth "test-user" {}).scopes = [""]
    ∧ ([""] : List String) ≠ []
    ∧ verifyRequiredScopes (GitHubAuthService.verifyAuth "test-user" {}).scopes [""] = none := by
  refine ⟨?_, ?_, ?_⟩ <;> decide

/-- C10 (amended): when the `x-oauth-scopes` header is absent or empty,
`verifyAuth` computes the singleton list `['']` (one empty-string token)
rather than the empty list, and every subsequent scope verification against
a required set containing at least one NON-EMPTY scope token fails, with
the empty string reported as the sole entry of `current_scopes`. -/
theorem claim_C10_empty_scopes (u : String) (h : Headers)
    (hh : h.xOauthScopes = none ∨ h.xOauthScopes = some "") :
    (GitHubAuthService.verifyAuth u h).scopes = [""]
    ∧ (∀ required : List String, (∃ r, r ∈ required ∧ r ≠ "") →
        ∃ e, verifyRequiredScopes [""] required = some e
          ∧ (payloadOf e).current_scopes = some [""]
          ∧ (payloadOf e).required_scopes = some required) := by
  constructor
  · rcases hh with hh | hh <;>
      simp [GitHubAuthService.verifyAuth, computeScopes, hh] <;> decide
  · intro required hr
    obtain ⟨r, hmem, hne⟩ := hr
    have hrmiss : r ∈ missingScopesOf [""] required := by
      unfold missingScopesOf
      refine List.mem_filter.mpr ⟨hmem, ?_⟩
      simp [hne]
    have hpos : 0 < (missingScopesOf [""] required).length :=
      List.length_pos.mpr (List.ne_nil_of_mem hrmiss)
    unfold verifyRequiredScopes
    rw [if_pos hpos]
    refine ⟨_, rfl, ?_, ?_⟩ <;>
      simp [createGitHubError, payloadOf, plainError, respHeadersOf,
        respDataMsgOf, optContains, copyStr]

/-- C10 witness. -/
theorem claim_C10_witness :
    (GitHubAuthService.verifyAuth "test-user" {}).scopes = [""]
    ∧ (∀ required : List String, (∃ r, r ∈ required ∧ r ≠ "") →
        ∃ e, verifyRequiredScopes [""] required = some e
          ∧ (payloadOf e).current_scopes = some [""]
          ∧ (payloadOf e).required_scopes = some required) :=
  claim_C10_empty_scopes "test-user" {} (Or.inl rfl)

/-! ## Catch-block helper lemmas -/

theorem errOrD_error {α : Type} (d e : AnyErr) :
    errOrD d (Except.error e : Except AnyErr α) = e := rfl

theorem handleError_raw (e : AnyErr) (ctx : Details) (hd : e.details = none) :
    handleError e ctx = createGitHubError
      (if e.message = "" then "An error occurred during the operation" else e.message)
      .internalError e ctx := by
  unfold handleError
  rw [hd]

theorem handleError_shaped (e : AnyErr) (ctx : Details) (d : Details)
    (hd : e.details = some d) (hc : hasCodeField e = true) :
    handleError e ctx = { e with details := some (mergeDetails d ctx) } := by
  unfold handleError
  rw [hd]
  simp [hc]

theorem addCollabCatchV1_mcp (p : AddCollabInput) (e : AnyErr)
    (h : e.isMcpInstance = true) : addCollabCatchV1 p e = e := by
  simp [addCollabCatchV1, h]

theorem addCollabCatchV2_mcp (p : AddCollabInput) (e : AnyErr)
    (h1 : (e.status == some 403 && strContains e.message "rate limit") = false)
    (h2 : strContains e.message "Network" = false)
    (h3 : e.isMcpInstance = true) : addCollabCatchV2 p e = e := by
  simp [addCollabCatchV2, h1, h2, h3]

theorem listReposCatchB_mcp (p : ListReposInput) (e : AnyErr)
    (h1 : (e.status == some 403 && strContains e.message "rate limit") = false)
    (h2 : strContains e.message "Network" = false)
    (h3 : e.isMcpInstance = true) : listReposCatchB p e = e := by
  simp [listReposCatchB, h1, h2, h3]

theorem updateCatch_missing (p : UpdateInput) (e : AnyErr)
    (h1 : (e.status == some 403 && strContains e.message "rate limit") = false)
    (h2 : strContains e.message "Network" = false)
    (h3 : p.org = "" ∨ p.repo = "" ∨ p.settings = none) :
    updateCatch p e = mkMcpError .internalError
      "Organization, repository, and settings are required"
      { action := some "update_repository_settings" } := by
  simp [updateCatch, h1, h2, h3]

theorem updateCatch_mcp (p : UpdateInput) (e : AnyErr)
    (h1 : (e.status == some 403 && strContains e.message "rate limit") = false)
    (h2 : strContains e.message "Network" = false)
    (h3 : ¬(p.org = "" ∨ p.repo = "" ∨ p.settings = none))
    (h4 : e.isMcpInstance = true) : updateCatch p e = e := by
  simp only [updateCatch, h1, h2, h4]
  simp [h3]

theorem createRepoCatchA_missing (p : CreateRepoInput) (e : AnyErr)
    (h1 : (e.status == some 403 && strContains e.message "rate limit") = false)
    (h2 : strContains e.message "Network" = false)
    (h3 : p.org = "" ∨ p.name = "") :
    createRepoCatchA p e = mkMcpError .internalError
      "Organization and name are required"
      { action := some "create_repository"
        attempted_operation := some "create_repo"
        organization := some p.org
        repository := some { org := some p.org, name := some p.name } } := by
  simp [createRepoCatchA, h1, h2, h3]

theorem listReposCatchA_merge (p : ListReposInput) (e : AnyErr)
    (hc : hasCodeField e = true)
    (hdet : e.details.isSome = true)
    (hbad : strContains e.message "Bad credentials" = false)
    (hrate : (e.status == some 403 && strContains e.message "rate limit") = false) :
    (payloadOf (listReposCatchA p e)).attempted_operation = some "list_repos" := by
  obtain ⟨d, hd⟩ := Option.isSome_iff_exists.mp hdet
  unfold listReposCatchA
  simp only [hbad, hrate, Bool.false_eq_true, if_false]
  rw [handleError_shaped e _ d hd hc]
  simp [payloadOf, mergeDetails, ovr]

theorem createRepoCatchB_merge (p : CreateRepoInput) (e : AnyErr)
    (hc : hasCodeField e = true)
    (hdet : e.details.isSome = true)
    (hbad : strContains e.message "Bad credentials" = false)
    (hrate : (e.status == some 403 && strContains e.message "rate limit") = false) :
    (payloadOf (createRepoCatchB p e)).attempted_operation = some "create_repo" := by
  obtain ⟨d, hd⟩ := Option.isSome_iff_exists.mp hdet
  unfold createRepoCatchB
  simp only [hbad, hrate, Bool.false_eq_true, if_false]
  rw [handleError_shaped e _ d hd hc]
  simp [payloadOf, mergeDetails, ovr]

/-! ## Claim C2 -/

/-- C2 counterexample: invoking `update_repository_settings` with every
required field missing yields a validation error whose details carry NO
`attempted_operation` at all (in particular not `'validate_input'`),
contradicting the claim that all five operations mark validation failures
with `attempted_operation = 'validate_input'`.  (The remote client is
indeed not called.) -/
theorem claim_C2_cex :
    (isErr (UpdateRepoSettingsService.execute
        { org := "", repo := "", settings := none } .ok
        (.ok ({ name := "x" }, {}))).result = true)
    ∧ (UpdateRepoSettingsService.execute
        { org := "", repo := "", settings := none } .ok
        (.ok ({ name := "x" }, {}))).calledWith = none
    ∧ (payloadOf (errOrD (plainError "")
        (UpdateRepoSettingsService.execute
          { org := "", repo := "", settings := none } .ok
          (.ok ({ name := "x" }, {}))).result)).attempted_operation = none
    ∧ (none : Option String) ≠ some "validate_input" := by
  refine ⟨?_, ?_, ?_, ?_⟩ <;> decide

/-- C2 (amended): every operation that takes input does fail fast on a
missing required field — the result is an error, the access check never
runs, and the remote client is never called (`list_organizations` takes no
input, so the claim is vacuous for it) — but only `add_collaborator`'s
validation errors (in the version the unit tests assert against) carry
`attempted_operation = 'validate_input'`; the other operations attach no
`attempted_operation` to their missing-field error (`update_repository_settings`,
the direct-throw versions of `add_collaborator` and `list_repositories`)
or an operation-specific marker (`'list_repos'`, `'create_repo'`). -/
theorem claim_C2_validation_fails_fast :
    (∀ (p : AddCollabInput) (auth : AuthOut) (remote : Except AnyErr (CollabRespData × Headers)),
      p.org = "" ∨ p.repo = "" ∨ p.username = "" ∨ p.permission = "" →
      (AddCollaboratorServiceV1.execute p auth remote).accessChecked = false
      ∧ (AddCollaboratorServiceV1.execute p auth remote).calledWith = none
      ∧ isErr (AddCollaboratorServiceV1.execute p auth remote).result = true
      ∧ (payloadOf (errOrD (plainError "")
          (AddCollaboratorServiceV1.execute p auth remote).result)).attempted_operation =
          some "validate_input")
    ∧ (∀ (p : AddCollabInput) (auth : AuthOut) (remote : Except AnyErr (CollabRespData × Headers)),
      p.org = "" ∨ p.repo = "" ∨ p.username = "" ∨ p.permission = "" →
      (AddCollaboratorServiceV2.execute p auth remote).accessChecked = false
      ∧ (AddCollaboratorServiceV2.execute p auth remote).calledWith = none
      ∧ isErr (AddCollaboratorServiceV2.execute p auth remote).result = true
      ∧ (payloadOf (errOrD (plainError "")
          (AddCollaboratorServiceV2.execute p auth remote).result)).attempted_operation = none)
    ∧ (∀ (p : ListReposInput) (auth : AuthOut) (remote : Except AnyErr (List RepoData × Headers)),
      p.org = "" →
      (ListReposServiceA.execute p auth remote).accessChecked = false
      ∧ (ListReposServiceA.execute p auth remote).remoteCalled = false
      ∧ isErr (ListReposServiceA.execute p auth remote).result = true
      ∧ (payloadOf (errOrD (plainError "")
          (ListReposServiceA.execute p auth remote).result)).attempted_operation =
          some "list_repos")
    ∧ (∀ (p : ListReposInput) (auth : AuthOut) (remote : Except AnyErr (List RepoData × Headers)),
      p.org = "" →
      (ListReposServiceB.execute p auth remote).accessChecked = false
      ∧ (ListReposServiceB.execute p auth remote).remoteCalled = false
      ∧ isErr (ListReposServiceB.execute p auth remote).result = true
      ∧ (payloadOf (errOrD (plainError "")
          (ListReposServiceB.execute p auth remote).result)).attempted_operation = none)
    ∧ (∀ (p : CreateRepoInput) (auth : AuthOut) (remote : Except AnyErr (CreateRespData × Headers)),
      p.org = "" ∨ p.name = "" →
      (CreateRepoServiceA.execute p auth remote).accessChecked = false
      ∧ (CreateRepoServiceA.execute p auth remote).remoteCalled = false
      ∧ isErr (CreateRepoServiceA.execute p auth remote).result = true
      ∧ (payloadOf (errOrD (plainError "")
          (CreateRepoServiceA.execute p auth remote).result)).attempted_operation =
          some "create_repo")
    ∧ (∀ (p : CreateRepoInput) (auth : AuthOut) (remote : Except AnyErr (CreateRespData × Headers)),
      p.org = "" ∨ p.name = "" →
      (CreateRepoServiceB.execute p auth remote).accessChecked = false
      ∧ (CreateRepoServiceB.execute p auth remote).remoteCalled = false
      ∧ isErr (CreateRepoServiceB.execute p auth remote).result = true
      ∧ (payloadOf (errOrD (plainError "")
          (CreateRepoServiceB.execute p auth remote).result)).attempted_operation =
          some "create_repo")
    ∧ (∀ (p : UpdateInput) (auth : AuthOut) (remote : Except AnyErr (UpdateRespData × Headers)),
      p.org = "" ∨ p.repo = "" ∨ p.settings = none →
      (UpdateRepoSettingsService.execute p auth remote).accessChecked = false
      ∧ (UpdateRepoSettingsService.execute p auth remote).calledWith = none
      ∧ isErr (UpdateRepoSettingsService.execute p auth remote).result = true
      ∧ (payloadOf (errOrD (plainError "")
          (UpdateRepoSettingsService.execute p auth remote).result)).attempted_operation = none) := by
  refine ⟨?_, ?_, ?_, ?_, ?_, ?_, ?_⟩
  · intro p auth remote h
    unfold AddCollaboratorServiceV1.execute
    rw [if_pos h]
    refine ⟨rfl, rfl, rfl, ?_⟩
    rw [show errOrD (plainError "") (Except.error (addCollabCatchV1 p
      (mkMcpError .internalError
        "Organization, repository, username, and permission are required"
        { action := some "add_collaborator"
          attempted_operation := some "validate_input" })) :
        Except AnyErr GitHubCollaborator) = addCollabCatchV1 p
      (mkMcpError .internalError
        "Organization, repository, username, and permission are required"
        { action := some "add_collaborator"
          attempted_operation := some "validate_input" }) from rfl]
    rw [addCollabCatchV1_mcp p _ (by decide)]
    decide
  · intro p auth remote h
    unfold AddCollaboratorServiceV2.execute
    rw [if_pos h]
    refine ⟨rfl, rfl, rfl, ?_⟩
    rw [show errOrD (plainError "") (Except.error (addCollabCatchV2 p
      (mkMcpError .internalError
        "Organization, repository, username, and permission are required"
        { action := some "add_collaborator" })) :
        Except AnyErr GitHubCollaborator) = addCollabCatchV2 p
      (mkMcpError .internalError
        "Organization, repository, username, and permission are required"
        { action := some "add_collaborator" }) from rfl]
    rw [addCollabCatchV2_mcp p _ (by decide) (by decide) (by decide)]
    decide
  · intro p auth remote h
    unfold ListReposServiceA.execute
    rw [if_pos h]
    refine ⟨rfl, rfl, rfl, ?_⟩
    rw [handleError_raw _ _ rfl]
    simp only [errOrD_error]
    apply listReposCatchA_merge <;> decide
  · intro p auth remote h
    unfold ListReposServiceB.execute
    rw [if_pos h]
    refine ⟨rfl, rfl, rfl, ?_⟩
    rw [show errOrD (plainError "") (Except.error (listReposCatchB p
      (mkMcpError .internalError "Organization is required"
        { action := some "list_repositories" })) :
        Except AnyErr (List GitHubRepo)) = listReposCatchB p
      (mkMcpError .internalError "Organization is required"
        { action := some "list_repositories" }) from rfl]
    rw [listReposCatchB_mcp p _ (by decide) (by decide) (by decide)]
    decide
  · intro p auth remote h
    unfold CreateRepoServiceA.execute
    rw [if_pos h]
    refine ⟨rfl, rfl, rfl, ?_⟩
    rw [show errOrD (plainError "") (Except.error (createRepoCatchA p
      (mkMcpError .internalError "Organization and name are required"
        { action := some "create_repository" })) :
        Except AnyErr GitHubRepo) = createRepoCatchA p
      (mkMcpError .internalError "Organization and name are required"
        { action := some "create_repository" }) from rfl]
    rw [createRepoCatchA_missing p _ (by decide) (by decide) h]
    simp [payloadOf, mkMcpError]
  · intro p auth remote h
    unfold CreateRepoServiceB.execute
    rw [if_pos h]
    refine ⟨rfl, rfl, rfl, ?_⟩
    rw [handleError_raw _ _ rfl]
    simp only [errOrD_error]
    apply createRepoCatchB_merge <;> decide
  · intro p auth remote h
    unfold UpdateRepoSettingsService.execute
    rw [if_pos h]
    refine ⟨rfl, rfl, rfl, ?_⟩
    rw [show errOrD (plainError "") (Except.error (updateCatch p
      (mkMcpError .internalError
        "Organization, repository, and settings are required"
        { action := some "update_repository_settings" })) :
        Except AnyErr GitHubRepoSettings) = updateCatch p
      (mkMcpError .internalError
        "Organization, repository, and settings are required"
        { action := some "update_repository_settings" }) from rfl]
    rw [updateCatch_missing p _ (by decide) (by decide) h]
    simp [payloadOf, mkMcpError]

/-- C2 witness: the amended theorem applied at concrete missing-field
inputs for each operation. -/
theorem claim_C2_witness :
    ((AddCollaboratorServiceV1.execute
        { org := "", repo := "test-repo", username := "test-user", permission := "push" }
        .ok (.ok ({}, {}))).accessChecked = false
      ∧ (AddCollaboratorServiceV1.execute
        { org := "", repo := "test-repo", username := "test-user", permission := "push" }
        .ok (.ok ({}, {}))).calledWith = none
      ∧ isErr (AddCollaboratorServiceV1.execute
        { org := "", repo := "test-repo", username := "test-user", permission := "push" }
        .ok (.ok ({}, {}))).result = true
      ∧ (payloadOf (errOrD (plainError "") (AddCollaboratorServiceV1.execute
        { org := "", repo := "test-repo", username := "test-user", permission := "push" }
        .ok (.ok ({}, {}))).result)).attempted_operation = some "validate_input")
    ∧ ((AddCollaboratorServiceV2.execute
        { org := "", repo := "test-repo", username := "test-user", permission := "push" }
        .ok (.ok ({}, {}))).accessChecked = false
      ∧ (AddCollaboratorServiceV2.execute
        { org := "", repo := "test-repo", username := "test-user", permission := "push" }
        .ok (.ok ({}, {}))).calledWith = none
      ∧ isErr (AddCollaboratorServiceV2.execute
        { org := "", repo := "test-repo", username := "test-user", permission := "push" }
        .ok (.ok ({}, {}))).result = true
      ∧ (payloadOf (errOrD (plainError "") (AddCollaboratorServiceV2.execute
        { org := "", repo := "test-repo", username := "test-user", permission := "push" }
        .ok (.ok ({}, {}))).result)).attempted_operation = none)
    ∧ ((ListReposServiceA.execute { org := "" } .ok (.ok ([], {}))).accessChecked = false
      ∧ (ListReposServiceA.execute { org := "" } .ok (.ok ([], {}))).remoteCalled = false
      ∧ isErr (ListReposServiceA.execute { org := "" } .ok (.ok ([], {}))).result = true
      ∧ (payloadOf (errOrD (plainError "")
          (ListReposServiceA.execute { org := "" } .ok (.ok ([], {}))).result)).attempted_operation =
          some "list_repos")
    ∧ ((ListReposServiceB.execute { org := "" } .ok (.ok ([], {}))).accessChecked = false
      ∧ (ListReposServiceB.execute { org := "" } .ok (.ok ([], {}))).remoteCalled = false
      ∧ isErr (ListReposServiceB.execute { org := "" } .ok (.ok ([], {}))).result = true
      ∧ (payloadOf (errOrD (plainError "")
          (ListReposServiceB.execute { org := "" } .ok (.ok ([], {}))).result)).attempted_operation = none)
    ∧ ((CreateRepoServiceA.execute { org := "", name := "new-repo" } .ok
          (.ok ({ name := "x" }, {}))).accessChecked = false
      ∧ (CreateRepoServiceA.execute { org := "", name := "new-repo" } .ok
          (.ok ({ name := "x" }, {}))).remoteCalled = false
      ∧ isErr (CreateRepoServiceA.execute { org := "", name := "new-repo" } .ok
          (.ok ({ name := "x" }, {}))).result = true
      ∧ (payloadOf (errOrD (plainError "") (CreateRepoServiceA.execute
          { org := "", name := "new-repo" } .ok
          (.ok ({ name := "x" }, {}))).result)).attempted_operation = some "create_repo")
    ∧ ((CreateRepoServiceB.execute { org := "", name := "new-repo" } .ok
          (.ok ({ name := "x" }, {}))).accessChecked = false
      ∧ (CreateRepoServiceB.execute { org := "", name := "new-repo" } .ok
          (.ok ({ name := "x" }, {}))).remoteCalled = false
      ∧ isErr (CreateRepoServiceB.execute { org := "", name := "new-repo" } .ok
          (.ok ({ name := "x" }, {}))).result = true
      ∧ (payloadOf (errOrD (plainError "") (CreateRepoServiceB.execute
          { org := "", name := "new-repo" } .ok
          (.ok ({ name := "x" }, {}))).result)).attempted_operation = some "create_repo")
    ∧ ((UpdateRepoSettingsService.execute { org := "", repo := "", settings := none } .ok
          (.ok ({ name := "x" }, {}))).accessChecked = false
      ∧ (UpdateRepoSettingsService.execute { org := "", repo := "", settings := none } .ok
          (.ok ({ name := "x" }, {}))).calledWith = none
      ∧ isErr (UpdateRepoSettingsService.execute { org := "", repo := "", settings := none } .ok
          (.ok ({ name := "x" }, {}))).result = true
      ∧ (payloadOf (errOrD (plainError "") (UpdateRepoSettingsService.execute
          { org := "", repo := "", settings := none } .ok
          (.ok ({ name := "x" }, {}))).result)).attempted_operation = none) :=
  ⟨claim_C2_validation_fails_fast.1 _ _ _ (Or.inl rfl),
   claim_C2_validation_fails_fast.2.1 _ _ _ (Or.inl rfl),
   claim_C2_validation_fails_fast.2.2.1 _ _ _ rfl,
   claim_C2_validation_fails_fast.2.2.2.1 _ _ _ rfl,
   claim_C2_validation_fails_fast.2.2.2.2.1 _ _ _ (Or.inl rfl),
   claim_C2_validation_fails_fast.2.2.2.2.2.1 _ _ _ (Or.inl rfl),
   claim_C2_validation_fails_fast.2.2.2.2.2.2 _ _ _ (Or.inl rfl)⟩

/-! ## Claim C3 -/

/-- C3 counterexample: a rejection with `status = 403`, an error message
containing "rate limit" and the two rate-limit response headers — but no
`response.data` body — loses its rate-limit information in
`list_organizations`: the service's own catch block computes the snapshot
but passes it in the context, `createGitHubError` only attaches
`rate_limit` when `error.response.data.message` mentions rate limiting and
drops `rate_limit` from the context, so the thrown error carries no
`rate_limit` at all, contradicting the claim for that operation. -/
theorem claim_C3_cex :
    isErr (ListOrgsService.execute .ok (.error
      { message := "API rate limit exceeded"
        status := some 403
        response := some { data := none
                           headers := some { xRatelimitRemaining := some "0"
                                             xRatelimitReset := some "1609459200" } } })).result = true
    ∧ (payloadOf (errOrD (plainError "") (ListOrgsService.execute .ok (.error
      { message := "API rate limit exceeded"
        status := some 403
        response := some { data := none
                           headers := some { xRatelimitRemaining := some "0"
                                             xRatelimitReset := some "1609459200" } } })).result)).rate_limit = none := by
  constructor <;> decide

/-- C3 (amended): for a remote rejection carrying `status = 403`, a message
containing "rate limit", the response headers
`{'x-ratelimit-remaining':'0','x-ratelimit-reset':'1609459200'}` AND a
response body message that also mentions "rate limit" (the shape of the
repository's own rate-limit fixture — without the body message the
factory-path operations attach nothing, see the counterexample), every
operation's thrown uniform error carries
`rate_limit = {remaining:'0', reset:'1609459200'}` and is therefore
rate-limit classified.  The implementation has no distinct `RATE_LIMITED`
code value: these errors carry the generic MCP internal code, and the
classification is observable through the attached snapshot. -/
theorem claim_C3_rate_limited (dm : String) (e : AnyErr)
    (hmcp : e.isMcpInstance = false)
    (hdet : e.details = none)
    (hstat : e.status = some 403)
    (hmsg : strContains e.message "rate limit" = true)
    (hresp : e.response = some { data := some { message := some dm }
                                 headers := some { xRatelimitRemaining := some "0"
                                                   xRatelimitReset := some "1609459200" } })
    (hdm : strContains dm "rate limit" = true)
    (hdml : strContains (lowerStr dm) "rate limit" = true) :
    (isErr (ListOrgsService.execute .ok (.error e)).result = true
      ∧ (payloadOf (errOrD (plainError "")
          (ListOrgsService.execute .ok (.error e)).result)).rate_limit =
          some { remaining := some "0", reset := some "1609459200" }
      ∧ isRateLimitClassified (payloadOf (errOrD (plainError "")
          (ListOrgsService.execute .ok (.error e)).result)) = true)
    ∧ (∀ p : ListReposInput, ¬(p.org = "") →
        isErr (ListReposServiceA.execute p .ok (.error e)).result = true
        ∧ (payloadOf (errOrD (plainError "")
            (ListReposServiceA.execute p .ok (.error e)).result)).rate_limit =
            some { remaining := some "0", reset := some "1609459200" }
        ∧ isRateLimitClassified (payloadOf (errOrD (plainError "")
            (ListReposServiceA.execute p .ok (.error e)).result)) = true)
    ∧ (∀ p : ListReposInput, ¬(p.org = "") →
        isErr (ListReposServiceB.execute p .ok (.error e)).result = true
        ∧ (payloadOf (errOrD (plainError "")
            (ListReposServiceB.execute p .ok (.error e)).result)).rate_limit =
            some { limit := none, remaining := some "0"
                   reset := some "1609459200", used := none }
        ∧ isRateLimitClassified (payloadOf (errOrD (plainError "")
            (ListReposServiceB.execute p .ok (.error e)).result)) = true)
    ∧ (∀ p : CreateRepoInput, ¬(p.org = "" ∨ p.name = "") →
        isErr (CreateRepoServiceA.execute p .ok (.error e)).result = true
        ∧ (payloadOf (errOrD (plainError "")
            (CreateRepoServiceA.execute p .ok (.error e)).result)).rate_limit =
            some { limit := none, remaining := some "0"
                   reset := some "1609459200", used := none }
        ∧ isRateLimitClassified (payloadOf (errOrD (plainError "")
            (CreateRepoServiceA.execute p .ok (.error e)).result)) = true)
    ∧ (∀ p : CreateRepoInput, ¬(p.org = "" ∨ p.name = "") →
        isErr (CreateRepoServiceB.execute p .ok (.error e)).result = true
        ∧ (payloadOf (errOrD (plainError "")
            (CreateRepoServiceB.execute p .ok (.error e)).result)).rate_limit =
            some { remaining := some "0", reset := some "1609459200" }
        ∧ isRateLimitClassified (payloadOf (errOrD (plainError "")
            (CreateRepoServiceB.execute p .ok (.error e)).result)) = true)
    ∧ (∀ p : AddCollabInput,
        ¬(p.org = "" ∨ p.repo = "" ∨ p.username = "" ∨ p.permission = "") →
        (p.permission = "pull" ∨ p.permission = "push" ∨ p.permission = "admin") →
        isErr (AddCollaboratorServiceV1.execute p .ok (.error e)).result = true
        ∧ (payloadOf (errOrD (plainError "")
            (AddCollaboratorServiceV1.execute p .ok (.error e)).result)).rate_limit =
            some { limit := none, remaining := some "0"
                   reset := some "1609459200", used := none }
        ∧ isRateLimitClassified (payloadOf (errOrD (plainError "")
            (AddCollaboratorServiceV1.execute p .ok (.error e)).result)) = true)
    ∧ (∀ p : AddCollabInput,
        ¬(p.org = "" ∨ p.repo = "" ∨ p.username = "" ∨ p.permission = "") →
        (p.permission = "pull" ∨ p.permission = "push" ∨ p.permission = "admin") →
        isErr (AddCollaboratorServiceV2.execute p .ok (.error e)).result = true
        ∧ (payloadOf (errOrD (plainError "")
            (AddCollaboratorServiceV2.execute p .ok (.error e)).result)).rate_limit =
            some { limit := none, remaining := some "0"
                   reset := some "1609459200", used := none }
        ∧ isRateLimitClassified (payloadOf (errOrD (plainError "")
            (AddCollaboratorServiceV2.execute p .ok (.error e)).result)) = true)
    ∧ (∀ (p : UpdateInput) (s : SettingsObj), p.settings = some s →
        ¬(p.org = "") → ¬(p.repo = "") →
        invalidSettingKeys s = [] →
        s.find? (fun kv => !kv.2.isBool) = none →
        isErr (UpdateRepoSettingsService.execute p .ok (.error e)).result = true
        ∧ (payloadOf (errOrD (plainError "")
            (UpdateRepoSettingsService.execute p .ok (.error e)).result)).rate_limit =
            some { limit := none, remaining := some "0"
                   reset := some "1609459200", used := none }
        ∧ isRateLimitClassified (payloadOf (errOrD (plainError "")
            (UpdateRepoSettingsService.execute p .ok (.error e)).result)) = true) := by
  refine ⟨?_, ?_, ?_, ?_, ?_, ?_, ?_, ?_⟩
  · refine ⟨?_, ?_, ?_⟩ <;>
      simp [ListOrgsService.execute, listOrgsCatch, handleError, createGitHubError,
        payloadOf, errOrD, isErr, respHeadersOf, respDataMsgOf, optContains,
        isRateLimitClassified, hstat, hmsg, hdet, hresp, hdml]
  · intro p hp
    refine ⟨?_, ?_, ?_⟩ <;>
      simp [ListReposServiceA.execute, listReposCatchA, handleError, createGitHubError,
        payloadOf, errOrD, isErr, respHeadersOf, respDataMsgOf, optContains,
        isRateLimitClassified, hp, hstat, hmsg, hdet, hresp, hdml]
  · intro p hp
    refine ⟨?_, ?_, ?_⟩ <;>
      simp [ListReposServiceB.execute, listReposCatchB, mkMcpError, payloadOf, errOrD,
        isErr, respHeadersOf, getRateLimitInfo, isRateLimitClassified,
        hp, hstat, hmsg, hresp]
  · intro p hp
    refine ⟨?_, ?_, ?_⟩ <;>
      simp [CreateRepoServiceA.execute, createRepoCatchA, mkMcpError, payloadOf, errOrD,
        isErr, respHeadersOf, getRateLimitInfo, isRateLimitClassified,
        hp, hstat, hmsg, hresp]
  · intro p hp
    refine ⟨?_, ?_, ?_⟩ <;>
      simp [CreateRepoServiceB.execute, createRepoCatchB, handleError, createGitHubError,
        payloadOf, errOrD, isErr, respHeadersOf, respDataMsgOf, optContains,
        isRateLimitClassified, hp, hstat, hmsg, hdet, hresp, hdml]
  · intro p hp hperm
    push_neg at hp
    obtain ⟨h1, h2, h3, h4⟩ := hp
    rcases hperm with h | h | h <;>
      refine ⟨?_, ?_, ?_⟩ <;>
        simp [AddCollaboratorServiceV1.execute, addCollabCatchV1, mkMcpError, payloadOf,
          errOrD, isErr, respHeadersOf, respDataMsgOf, optContains, getRateLimitInfo,
          isRateLimitClassified, h1, h2, h3, h4, h, hmcp, hstat, hdm, hresp]
  · intro p hp hperm
    push_neg at hp
    obtain ⟨h1, h2, h3, h4⟩ := hp
    rcases hperm with h | h | h <;>
      refine ⟨?_, ?_, ?_⟩ <;>
        simp [AddCollaboratorServiceV2.execute, addCollabCatchV2, mkMcpError, payloadOf,
          errOrD, isErr, respHeadersOf, getRateLimitInfo, isRateLimitClassified,
          h1, h2, h3, h4, h, hstat, hmsg, hresp]
  · intro p s hs horg hrepo hkeys hbool
    refine ⟨?_, ?_, ?_⟩ <;>
      simp [UpdateRepoSettingsService.execute, updateCatch, mkMcpError, payloadOf,
        errOrD, isErr, respHeadersOf, getRateLimitInfo, isRateLimitClassified,
        hs, horg, hrepo, hkeys, hbool, hstat, hmsg, hresp]

/-- The repository's canonical rate-limit rejection shape
(`test/fixtures/utils/errors.ts`, `createRateLimitError`), used to witness
the amended C3. -/
def rlFixtureErr : AnyErr :=
  { message := "API rate limit exceeded"
    status := some 403
    response := some { data := some { message := some "API rate limit exceeded" }
                       headers := some { xRatelimitRemaining := some "0"
                                         xRatelimitReset := some "1609459200" } } }

/-- C3 witness: the amended theorem applied to the canonical fixture error
for every operation. -/
theorem claim_C3_witness :
    (payloadOf (errOrD (plainError "")
      (ListOrgsService.execute .ok (.error rlFixtureErr)).result)).rate_limit =
        some { remaining := some "0", reset := some "1609459200" }
    ∧ (payloadOf (errOrD (plainError "")
      (ListReposServiceA.execute { org := "test-org" } .ok (.error rlFixtureErr)).result)).rate_limit =
        some { remaining := some "0", reset := some "1609459200" }
    ∧ (payloadOf (errOrD (plainError "")
      (ListReposServiceB.execute { org := "test-org" } .ok (.error rlFixtureErr)).result)).rate_limit =
        some { limit := none, remaining := some "0", reset := some "1609459200", used := none }
    ∧ (payloadOf (errOrD (plainError "")
      (CreateRepoServiceA.execute { org := "test-org", name := "new-repo" } .ok
        (.error rlFixtureErr)).result)).rate_limit =
        some { limit := none, remaining := some "0", reset := some "1609459200", used := none }
    ∧ (payloadOf (errOrD (plainError "")
      (CreateRepoServiceB.execute { org := "test-org", name := "new-repo" } .ok
        (.error rlFixtureErr)).result)).rate_limit =
        some { remaining := some "0", reset := some "1609459200" }
    ∧ (payloadOf (errOrD (plainError "")
      (AddCollaboratorServiceV1.execute
        { org := "test-org", repo := "test-repo", username := "test-user", permission := "push" }
        .ok (.error rlFixtureErr)).result)).rate_limit =
        some { limit := none, remaining := some "0", reset := some "1609459200", used := none }
    ∧ (payloadOf (errOrD (plainError "")
      (AddCollaboratorServiceV2.execute
        { org := "test-org", repo := "test-repo", username := "test-user", permission := "push" }
        .ok (.error rlFixtureErr)).result)).rate_limit =
        some { limit := none, remaining := some "0", reset := some "1609459200", used := none }
    ∧ (payloadOf (errOrD (plainError "")
      (UpdateRepoSettingsService.execute
        { org := "test-org", repo := "test-repo", settings := some [("has_issues", JVal.b true)] }
        .ok (.error rlFixtureErr)).result)).rate_limit =
        some { limit := none, remaining := some "0", reset := some "1609459200", used := none } := by
  have h := claim_C3_rate_limited "API rate limit exceeded" rlFixtureErr
    rfl rfl rfl (by decide) rfl (by decide) (by decide)
  exact ⟨h.1.2.1,
    (h.2.1 _ (by decide)).2.1,
    (h.2.2.1 _ (by decide)).2.1,
    (h.2.2.2.1 _ (by decide)).2.1,
    (h.2.2.2.2.1 _ (by decide)).2.1,
    (h.2.2.2.2.2.1 _ (by decide) (by decide)).2.1,
    (h.2.2.2.2.2.2.1 _ (by decide) (by decide)).2.1,
    (h.2.2.2.2.2.2.2 _ [("has_issues", JVal.b true)] rfl (by decide) (by decide)
      (by decide) rfl).2.1⟩

/-- Lemma: `updateCatch` re-throws a validation `McpError` unchanged (its `status`
is absent, so the rate-limit branch cannot fire). -/
theorem updateCatch_mcpErr (p : UpdateInput) (c : ErrorCode) (msg : String) (d : Details)
    (hN : strContains (mcpMessage c msg) "Network" = false)
    (h3 : ¬(p.org = "" ∨ p.repo = "" ∨ p.settings = none)) :
    updateCatch p (mkMcpError c msg d) = mkMcpError c msg d := by
  apply updateCatch_mcp
  · rfl
  · exact hN
  · exact h3
  · rfl

/-! ## Claim C6 -/

theorem strContains_middle (x a b k : String) :
    strContains (x ++ ((a ++ k) ++ b)) k = true := by
  rw [strContains, strData_append, strData_append, strData_append]
  have hassoc : x.data ++ ((a.data ++ k.data) ++ b.data) =
      (x.data ++ a.data) ++ (k.data ++ b.data) := by
    simp [List.append_assoc]
  rw [hassoc]
  exact hasSub_append_pre _ _ _ (hasSub_refl_append _ _)

/-- C6 counterexample: the settings object
`{foo: true, has_issues: "true"}` maps its allow-listed key `has_issues` to
a non-boolean value, and is rejected — but the unknown-key check runs
first, so the error message is about `foo` and does NOT cite `has_issues`,
contradicting the claim's second conjunct.  (The remote call is still
never invoked.) -/
theorem claim_C6_cex :
    isErr (UpdateRepoSettingsService.execute
      { org := "test-org", repo := "test-repo"
        settings := some [("foo", JVal.b true), ("has_issues", JVal.s "true")] } .ok
      (.ok ({ name := "test-repo" }, {}))).result = true
    ∧ (UpdateRepoSettingsService.execute
      { org := "test-org", repo := "test-repo"
        settings := some [("foo", JVal.b true), ("has_issues", JVal.s "true")] } .ok
      (.ok ({ name := "test-repo" }, {}))).calledWith = none
    ∧ strContains (errOrD (plainError "") (UpdateRepoSettingsService.execute
      { org := "test-org", repo := "test-repo"
        settings := some [("foo", JVal.b true), ("has_issues", JVal.s "true")] } .ok
      (.ok ({ name := "test-repo" }, {}))).result).message "has_issues" = false := by
  refine ⟨?_, ?_, ?_⟩ <;> decide

/-- C6 (amended): for `update_repository_settings` with non-empty `org` and
`repo`, a settings object containing keys outside the allow-list is
rejected before the access check and the remote call, with a message
listing exactly the offending keys (and containing each of them); when all
keys are allow-listed, the first non-boolean value in object order is
rejected, citing that key, again before any access check or remote call.
The unknown-key check runs first, so a mixed object is reported only for
its unknown keys (see the counterexample); and the claim only holds as
long as the constructed message does not itself contain "Network", since
the catch-all string matching would re-wrap such a message into a generic
network error. -/
theorem claim_C6_settings_validation (org repo : String) (s : SettingsObj)
    (horg : ¬(org = "")) (hrepo : ¬(repo = "")) :
    (∀ (auth : AuthOut) (remote : Except AnyErr (UpdateRespData × Headers)),
      invalidSettingKeys s ≠ [] →
      strContains (mcpMessage .internalError
        ("Invalid settings provided: " ++ joinSep ", " (invalidSettingKeys s))) "Network" = false →
      isErr (UpdateRepoSettingsService.execute
        { org := org, repo := repo, settings := some s } auth remote).result = true
      ∧ (UpdateRepoSettingsService.execute
        { org := org, repo := repo, settings := some s } auth remote).accessChecked = false
      ∧ (UpdateRepoSettingsService.execute
        { org := org, repo := repo, settings := some s } auth remote).calledWith = none
      ∧ (errOrD (plainError "") (UpdateRepoSettingsService.execute
          { org := org, repo := repo, settings := some s } auth remote).result).message =
          mcpMessage .internalError
            ("Invalid settings provided: " ++ joinSep ", " (invalidSettingKeys s))
      ∧ (∀ k, k ∈ invalidSettingKeys s →
          strContains (errOrD (plainError "") (UpdateRepoSettingsService.execute
            { org := org, repo := repo, settings := some s } auth remote).result).message k = true))
    ∧ (∀ (auth : AuthOut) (remote : Except AnyErr (UpdateRespData × Headers))
        (k : String) (v : JVal),
      invalidSettingKeys s = [] →
      s.find? (fun kv => !kv.2.isBool) = some (k, v) →
      strContains (mcpMessage .internalError
        ("Setting \x27" ++ k ++ "\x27 must be a boolean")) "Network" = false →
      isErr (UpdateRepoSettingsService.execute
        { org := org, repo := repo, settings := some s } auth remote).result = true
      ∧ (UpdateRepoSettingsService.execute
        { org := org, repo := repo, settings := some s } auth remote).accessChecked = false
      ∧ (UpdateRepoSettingsService.execute
        { org := org, repo := repo, settings := some s } auth remote).calledWith = none
      ∧ (errOrD (plainError "") (UpdateRepoSettingsService.execute
          { org := org, repo := repo, settings := some s } auth remote).result).message =
          mcpMessage .internalError ("Setting \x27" ++ k ++ "\x27 must be a boolean")
      ∧ strContains (errOrD (plainError "") (UpdateRepoSettingsService.execute
          { org := org, repo := repo, settings := some s } auth remote).result).message k = true) := by
  constructor
  · intro auth remote hinv hN
    have hpos : 0 < (invalidSettingKeys s).length := List.length_pos.mpr hinv
    have hexec : UpdateRepoSettingsService.execute
        { org := org, repo := repo, settings := some s } auth remote =
        { result := .error (mkMcpError .internalError
            ("Invalid settings provided: " ++ joinSep ", " (invalidSettingKeys s))
            { action := some "update_repository_settings"
              organization := some org
              repository := some { org := some org, repo := some repo } })
          accessChecked := false, calledWith := none } := by
      unfold UpdateRepoSettingsService.execute
      rw [if_neg (by simp [horg, hrepo])]
      simp only [Option.getD_some]
      rw [if_pos hpos]
      rw [updateCatch_mcpErr _ _ _ _ hN (by simp [horg, hrepo])]
    rw [hexec]
    refine ⟨rfl, rfl, rfl, rfl, ?_⟩
    intro k hk
    simp only [errOrD_error]
    show strContains (mcpMessage .internalError
      ("Invalid settings provided: " ++ joinSep ", " (invalidSettingKeys s))) k = true
    rw [mcpMessage]
    exact strContains_append_right _ _ _ (strContains_joinSep _ _ _ _ hk)
  · intro auth remote k v hkeys hfind hN
    have hexec : UpdateRepoSettingsService.execute
        { org := org, repo := repo, settings := some s } auth remote =
        { result := .error (mkMcpError .internalError
            ("Setting \x27" ++ k ++ "\x27 must be a boolean")
            { action := some "update_repository_settings"
              organization := some org
              repository := some { org := some org, repo := some repo } })
          accessChecked := false, calledWith := none } := by
      unfold UpdateRepoSettingsService.execute
      rw [if_neg (by simp [horg, hrepo])]
      simp only [Option.getD_some]
      rw [if_neg (by simp [hkeys])]
      simp only [hfind]
      rw [updateCatch_mcpErr _ _ _ _ hN (by simp [horg, hrepo])]
    rw [hexec]
    refine ⟨rfl, rfl, rfl, rfl, ?_⟩
    simp only [errOrD_error]
    show strContains (mcpMessage .internalError
      ("Setting \x27" ++ k ++ "\x27 must be a boolean")) k = true
    rw [mcpMessage]
    exact strContains_middle _ _ _ _

/-- C6 witness: the amended theorem applied to `{foo: true}` (unknown key)
and `{has_issues: "true"}` (non-boolean value). -/
theorem claim_C6_witness :
    (isErr (UpdateRepoSettingsService.execute
      { org := "test-org", repo := "test-repo", settings := some [("foo", JVal.b true)] } .ok
      (.ok ({ name := "test-repo" }, {}))).result = true
    ∧ (UpdateRepoSettingsService.execute
      { org := "test-org", repo := "test-repo", settings := some [("foo", JVal.b true)] } .ok
      (.ok ({ name := "test-repo" }, {}))).accessChecked = false
    ∧ (UpdateRepoSettingsService.execute
      { org := "test-org", repo := "test-repo", settings := some [("foo", JVal.b true)] } .ok
      (.ok ({ name := "test-repo" }, {}))).calledWith = none
    ∧ (errOrD (plainError "") (UpdateRepoSettingsService.execute
        { org := "test-org", repo := "test-repo", settings := some [("foo", JVal.b true)] } .ok
        (.ok ({ name := "test-repo" }, {}))).result).message =
        mcpMessage .internalError
          ("Invalid settings provided: " ++
            joinSep ", " (invalidSettingKeys [("foo", JVal.b true)]))
    ∧ (∀ k, k ∈ invalidSettingKeys [("foo", JVal.b true)] →
        strContains (errOrD (plainError "") (UpdateRepoSettingsService.execute
          { org := "test-org", repo := "test-repo", settings := some [("foo", JVal.b true)] } .ok
          (.ok ({ name := "test-repo" }, {}))).result).message k = true))
    ∧ (isErr (UpdateRepoSettingsService.execute
      { org := "test-org", repo := "test-repo"
        settings := some [("has_issues", JVal.s "true")] } .ok
      (.ok ({ name := "test-repo" }, {}))).result = true
    ∧ (UpdateRepoSettingsService.execute
      { org := "test-org", repo := "test-repo"
        settings := some [("has_issues", JVal.s "true")] } .ok
      (.ok ({ name := "test-repo" }, {}))).accessChecked = false
    ∧ (UpdateRepoSettingsService.execute
      { org := "test-org", repo := "test-repo"
        settings := some [("has_issues", JVal.s "true")] } .ok
      (.ok ({ name := "test-repo" }, {}))).calledWith = none
    ∧ (errOrD (plainError "") (UpdateRepoSettingsService.execute
        { org := "test-org", repo := "test-repo"
          settings := some [("has_issues", JVal.s "true")] } .ok
        (.ok ({ name := "test-repo" }, {}))).result).message =
        mcpMessage .internalError ("Setting \x27has_issues\x27 must be a boolean")
    ∧ strContains (errOrD (plainError "") (UpdateRepoSettingsService.execute
        { org := "test-org", repo := "test-repo"
          settings := some [("has_issues", JVal.s "true")] } .ok
        (.ok ({ name := "test-repo" }, {}))).result).message "has_issues" = true) :=
  ⟨(claim_C6_settings_validation "test-org" "test-repo" [("foo", JVal.b true)]
      (by decide) (by decide)).1 .ok (.ok ({ name := "test-repo" }, {}))
      (by decide) (by decide),
   (claim_C6_settings_validation "test-org" "test-repo" [("has_issues", JVal.s "true")]
      (by decide) (by decide)).2 .ok (.ok ({ name := "test-repo" }, {}))
      "has_issues" (JVal.s "true") (by decide) (by decide) (by decide)⟩

/-! ## Claim C7 -/

/-- C7 counterexample: a valid two-key settings input
(`{has_issues: true, has_wiki: false}`) produces a success result whose
settings object carries all SIX allow-listed keys (defaulted with
`?? false` from the remote response), not the two supplied keys,
contradicting the round-trip claim. -/
theorem claim_C7_cex :
    ((okOrD { name := "", settings := [] } (UpdateRepoSettingsService.execute
      { org := "test-org", repo := "test-repo"
        settings := some [("has_issues", JVal.b true), ("has_wiki", JVal.b false)] } .ok
      (.ok ({ name := "test-repo", has_issues := some true, has_wiki := some false }, {}))).result).settings.map
        Prod.fst) = validSettings
    ∧ ((okOrD { name := "", settings := [] } (UpdateRepoSettingsService.execute
      { org := "test-org", repo := "test-repo"
        settings := some [("has_issues", JVal.b true), ("has_wiki", JVal.b false)] } .ok
      (.ok ({ name := "test-repo", has_issues := some true, has_wiki := some false }, {}))).result).settings.map
        Prod.fst ≠
        ([("has_issues", JVal.b true), ("has_wiki", JVal.b false)] : SettingsObj).map Prod.fst) := by
  constructor <;> decide

/-- C7 (amended): for every valid input the success result of
`update_repository_settings` is the shaped remote response, whose settings
object contains exactly the six allow-listed keys in the fixed order,
independent of which subset of keys the caller supplied (missing remote
values default to `false`). -/
theorem claim_C7_settings_keys (org repo : String) (s : SettingsObj)
    (d : UpdateRespData) (hdrs : Headers)
    (horg : ¬(org = "")) (hrepo : ¬(repo = ""))
    (hkeys : invalidSettingKeys s = [])
    (hbool : s.find? (fun kv => !kv.2.isBool) = none) :
    (UpdateRepoSettingsService.execute
      { org := org, repo := repo, settings := some s } .ok (.ok (d, hdrs))).result =
      .ok (shapeUpdatedSettings d)
    ∧ (shapeUpdatedSettings d).settings.map Prod.fst = validSettings := by
  constructor
  · unfold UpdateRepoSettingsService.execute
    rw [if_neg (by simp [horg, hrepo])]
    simp only [Option.getD_some]
    rw [if_neg (by simp [hkeys])]
    simp only [hbool]
  · rfl

/-- C7 witness. -/
theorem claim_C7_witness :
    (UpdateRepoSettingsService.execute
      { org := "test-org", repo := "test-repo"
        settings := some [("has_issues", JVal.b true)] } .ok
      (.ok ({ name := "test-repo", has_issues := some true }, {}))).result =
      .ok (shapeUpdatedSettings { name := "test-repo", has_issues := some true })
    ∧ (shapeUpdatedSettings { name := "test-repo", has_issues := some true }).settings.map
        Prod.fst = validSettings :=
  claim_C7_settings_keys "test-org" "test-repo" [("has_issues", JVal.b true)]
    { name := "test-repo", has_issues := some true } {}
    (by decide) (by decide) (by decide) rfl

/-! ## Claim C8 -/

/-- C8: for `add_collaborator`, any permission value outside
{pull, push, admin} leads to a validation error thrown before the access
check and before any remote call; a permission in the set passes
validation (with the other fields present) and is forwarded UNCHANGED as
the `permission` argument of the remote `repos.addCollaborator` call, and
the success payload's permission matrix satisfies: `pull` is true for all
three accepted values, `push` is true exactly for push/admin, and `admin`
is true exactly for admin. -/
theorem claim_C8_permission (p : AddCollabInput) :
    (∀ (auth : AuthOut) (remote : Except AnyErr (CollabRespData × Headers)),
      ¬(p.permission = "pull" ∨ p.permission = "push" ∨ p.permission = "admin") →
      (AddCollaboratorServiceV2.execute p auth remote).accessChecked = false
      ∧ (AddCollaboratorServiceV2.execute p auth remote).calledWith = none
      ∧ isErr (AddCollaboratorServiceV2.execute p auth remote).result = true)
    ∧ (∀ (data : CollabRespData) (hdrs : Headers),
      ¬(p.org = "" ∨ p.repo = "" ∨ p.username = "" ∨ p.permission = "") →
      (p.permission = "pull" ∨ p.permission = "push" ∨ p.permission = "admin") →
      (AddCollaboratorServiceV2.execute p .ok (.ok (data, hdrs))).calledWith =
        some { owner := p.org, repo := p.repo, username := p.username
               permission := p.permission }
      ∧ (AddCollaboratorServiceV2.execute p .ok (.ok (data, hdrs))).result =
          .ok (shapeCollaborator p.permission)
      ∧ ((shapeCollaborator p.permission).permissions.getD
          { pull := false, push := false, admin := false }).pull = true
      ∧ (((shapeCollaborator p.permission).permissions.getD
          { pull := false, push := false, admin := false }).push = true ↔
          (p.permission = "push" ∨ p.permission = "admin"))
      ∧ (((shapeCollaborator p.permission).permissions.getD
          { pull := false, push := false, admin := false }).admin = true ↔
          p.permission = "admin")) := by
  constructor
  · intro auth remote hbad
    push_neg at hbad
    obtain ⟨hb1, hb2, hb3⟩ := hbad
    by_cases hmiss : p.org = "" ∨ p.repo = "" ∨ p.username = "" ∨ p.permission = ""
    · refine ⟨?_, ?_, ?_⟩ <;>
        simp [AddCollaboratorServiceV2.execute, hmiss, isErr]
    · push_neg at hmiss
      obtain ⟨h1, h2, h3, h4⟩ := hmiss
      refine ⟨?_, ?_, ?_⟩ <;>
        simp [AddCollaboratorServiceV2.execute, isErr, h1, h2, h3, h4, hb1, hb2, hb3]
  · intro data hdrs hmiss hperm
    push_neg at hmiss
    obtain ⟨h1, h2, h3, h4⟩ := hmiss
    rcases hperm with h | h | h <;>
      refine ⟨?_, ?_, ?_, ?_, ?_⟩ <;>
        simp [AddCollaboratorServiceV2.execute, shapeCollaborator, h, h1, h2, h3, h4]

/-- C8 witness: rejection of `permission: "owner"` and acceptance of
`permission: "push"`. -/
theorem claim_C8_witness :
    ((AddCollaboratorServiceV2.execute
        { org := "test-org", repo := "test-repo", username := "test-user", permission := "owner" }
        .ok (.ok ({}, {}))).accessChecked = false
      ∧ (AddCollaboratorServiceV2.execute
        { org := "test-org", repo := "test-repo", username := "test-user", permission := "owner" }
        .ok (.ok ({}, {}))).calledWith = none
      ∧ isErr (AddCollaboratorServiceV2.execute
        { org := "test-org", repo := "test-repo", username := "test-user", permission := "owner" }
        .ok (.ok ({}, {}))).result = true)
    ∧ ((AddCollaboratorServiceV2.execute
        { org := "test-org", repo := "test-repo", username := "test-user", permission := "push" }
        .ok (.ok ({}, {}))).calledWith =
        some { owner := "test-org", repo := "test-repo", username := "test-user"
               permission := "push" }
      ∧ (AddCollaboratorServiceV2.execute
        { org := "test-org", repo := "test-repo", username := "test-user", permission := "push" }
        .ok (.ok ({}, {}))).result = .ok (shapeCollaborator "push")
      ∧ ((shapeCollaborator "push").permissions.getD
          { pull := false, push := false, admin := false }).pull = true
      ∧ (((shapeCollaborator "push").permissions.getD
          { pull := false, push := false, admin := false }).push = true ↔
          (("push" : String) = "push" ∨ ("push" : String) = "admin"))
      ∧ (((shapeCollaborator "push").permissions.getD
          { pull := false, push := false, admin := false }).admin = true ↔
          ("push" : String) = "admin")) :=
  ⟨(claim_C8_permission
      { org := "test-org", repo := "test-repo", username := "test-user", permission := "owner" }).1
      .ok (.ok ({}, {})) (by decide),
   (claim_C8_permission
      { org := "test-org", repo := "test-repo", username := "test-user", permission := "push" }).2
      {} {} (by decide) (by decide)⟩

/-! ## Claim C9 -/

/-- C9: every successful `add_collaborator` invocation (both versions of
the service) returns `status = 'active'` and the hard-coded
`invitation_url = 'https://github.com/orgs/test-org/invitation'`,
regardless of the remote response's data — the remote invitation data is
never reflected in the success payload. -/
theorem claim_C9_constant_success (p : AddCollabInput) (data : CollabRespData)
    (hdrs : Headers)
    (hval : ¬(p.org = "" ∨ p.repo = "" ∨ p.username = "" ∨ p.permission = ""))
    (hperm : p.permission = "pull" ∨ p.permission = "push" ∨ p.permission = "admin") :
    (AddCollaboratorServiceV1.execute p .ok (.ok (data, hdrs))).result =
      .ok (shapeCollaborator p.permission)
    ∧ (AddCollaboratorServiceV2.execute p .ok (.ok (data, hdrs))).result =
      .ok (shapeCollaborator p.permission)
    ∧ (shapeCollaborator p.permission).status = "active"
    ∧ (shapeCollaborator p.permission).invitation_url =
      "https://github.com/orgs/test-org/invitation" := by
  push_neg at hval
  obtain ⟨h1, h2, h3, h4⟩ := hval
  rcases hperm with h | h | h <;>
    refine ⟨?_, ?_, ?_, ?_⟩ <;>
      simp [AddCollaboratorServiceV1.execute, AddCollaboratorServiceV2.execute,
        shapeCollaborator, h, h1, h2, h3, h4]

/-- C9 witness: the remote response carries an invitation URL of its own,
and the success payload still shows the two constants. -/
theorem claim_C9_witness :
    (AddCollaboratorServiceV1.execute
      { org := "acme", repo := "gadget", username := "someone", permission := "pull" }
      .ok (.ok ({ html_url := some "https://github.com/acme/gadget/invitations/42" }, {}))).result =
      .ok (shapeCollaborator "pull")
    ∧ (AddCollaboratorServiceV2.execute
      { org := "acme", repo := "gadget", username := "someone", permission := "pull" }
      .ok (.ok ({ html_url := some "https://github.com/acme/gadget/invitations/42" }, {}))).result =
      .ok (shapeCollaborator "pull")
    ∧ (shapeCollaborator "pull").status = "active"
    ∧ (shapeCollaborator "pull").invitation_url =
      "https://github.com/orgs/test-org/invitation" :=
  claim_C9_constant_success
    { org := "acme", repo := "gadget", username := "someone", permission := "pull" }
    { html_url := some "https://github.com/acme/gadget/invitations/42" } {}
    (by decide) (by decide)
